import Mathlib

/-!
Shallow embedding of the civic recommendation core:
the priority mapper (`PriorityMappingService`), the candidate matcher
(`CandidateMatchingService`), the ballot-measure matcher (`BallotMeasureService`)
and the orchestrator (`RecommendationService`), together with the mock data
rosters they operate on, translated from the TypeScript sources.

Text is modelled as Lean `String` (the data is ASCII, so JavaScript's
UTF-16-based `toLowerCase`, `length` and default sort order agree with the
code-point based model used here).  JavaScript numbers are modelled as exact
fractions (the type `Q` below): every score in the source is built from
decimal literals and exact arithmetic on them.  A thrown JavaScript exception
is modelled as `Except.error` carrying the error message.
-/

/-! ### Character and string utilities (JavaScript semantics) -/

/-- ASCII lower-casing of one character, as `String.prototype.toLowerCase`
acts on the ASCII data appearing in this code base. -/
def charLower (c : Char) : Char :=
  if 'A' ≤ c ∧ c ≤ 'Z' then Char.ofNat (c.toNat + 32) else c

def lowerL (l : List Char) : List Char := l.map charLower

/-- `s.toLowerCase()` -/
def lowerS (s : String) : String := ⟨lowerL s.data⟩

/-- The whitespace class of JavaScript's `\s` and `trim`, restricted to the
characters that can appear in this code base. -/
def isWsChar (c : Char) : Bool :=
  c = ' ' || c = '\t' || c = '\n' || c = '\r' || c = '\x0b' || c = '\x0c'

def trimL (l : List Char) : List Char :=
  ((l.dropWhile isWsChar).reverse.dropWhile isWsChar).reverse

/-- `s.trim()` -/
def trimS (s : String) : String := ⟨trimL s.data⟩

/-- Does `hay` start with `nee`? -/
def startsWithL : List Char → List Char → Bool
  | _, [] => true
  | [], _ :: _ => false
  | c :: cs, d :: ds => c = d && startsWithL cs ds

/-- Does `nee` occur as a contiguous segment of `hay`?
(`hay.includes(nee)` in JavaScript.) -/
def containsL : List Char → List Char → Bool
  | [], nee => startsWithL [] nee
  | c :: t, nee => startsWithL (c :: t) nee || containsL t nee

/-- `s.includes(t)` -/
def strIncludes (s t : String) : Bool := containsL s.data t.data

/-- `s.startsWith(t)` -/
def strStartsWith (s t : String) : Bool := startsWithL s.data t.data

/-- `list.join(' ')` on strings. -/
def joinSp (l : List String) : String := ⟨List.intercalate [' '] (l.map (·.data))⟩

/-- `list.join(' and ')` on strings. -/
def joinAnd (l : List String) : String := ⟨List.intercalate " and ".data (l.map (·.data))⟩

/-- `list.join(', ')` on strings. -/
def joinComma (l : List String) : String := ⟨List.intercalate ", ".data (l.map (·.data))⟩

/-- Worker for `splitWs`: `lastWs` records whether the previous character was
part of a whitespace separator run. -/
def splitWsGo : List Char → List Char → Bool → List (List Char)
  | [], cur, _ => [cur.reverse]
  | c :: rest, cur, lastWs =>
    if isWsChar c then
      if lastWs then splitWsGo rest cur true
      else cur.reverse :: splitWsGo rest [] true
    else splitWsGo rest (c :: cur) false

/-- `s.split(/\s+/)`: split on maximal whitespace runs, keeping the empty
boundary pieces that JavaScript produces for leading/trailing whitespace. -/
def splitWs (l : List Char) : List (List Char) := splitWsGo l [] false

example : splitWs "a  b".data = ["a".data, "b".data] := by decide
example : splitWs " a ".data = [[], "a".data, []] := by decide
example : strIncludes "lower taxes" "tax" = true := by decide
example : strIncludes "tax" "taxes" = false := by decide
example : lowerS "Fix The ROADS" = "fix the roads" := by decide
example : trimS "  x " = "x" := by decide

/-! ### Exact fraction arithmetic

JavaScript numbers are modelled as exact fractions.  `Mathlib`'s `ℚ`
normalizes through `Nat.gcd`, which the kernel cannot evaluate, so the
embedding computes with unnormalized fractions (`Q`, denominators always
positive by construction) and interprets them in `ℚ` via `Q.toRat` whenever a
statement speaks about numeric values.  A decimal literal `d.dd` of the
source is transcribed verbatim as `qmk ddd 10^k`. -/

structure Q where
  num : Int
  den : Nat
deriving DecidableEq, Repr

def qmk (n : Int) (d : Nat) : Q := ⟨n, d⟩

def Q.add (a b : Q) : Q := ⟨a.num * b.den + b.num * a.den, a.den * b.den⟩

def Q.mul (a b : Q) : Q := ⟨a.num * b.num, a.den * b.den⟩

/-- `a <= b` on fractions with positive denominators, by cross-multiplication. -/
def Q.le (a b : Q) : Bool := decide (a.num * b.den ≤ b.num * a.den)

/-- `a < b` on fractions with positive denominators, by cross-multiplication. -/
def Q.lt (a b : Q) : Bool := decide (a.num * b.den < b.num * a.den)

/-- `Math.min` on two fractions. -/
def qmin (a b : Q) : Q := if Q.le a b then a else b

/-- The value of a fraction, in `ℚ`. -/
def Q.toRat (q : Q) : ℚ := (q.num : ℚ) / (q.den : ℚ)

/-- Left-fold summation of fractions starting from `0`, matching a JavaScript
accumulation loop `s = 0; for (x of l) s += x;`. -/
def qsum (l : List Q) : Q := l.foldl Q.add (qmk 0 1)

example : Q.add (qmk 1 5) (qmk 1 5) = qmk 10 25 := by decide
example : Q.le (qmk 10 25) (qmk 2 5) = true := by decide
example : Q.lt (qmk 7 10) (qmk 85 100) = true := by decide
example : (qmk 8 10).toRat = 4/5 := by norm_num [Q.toRat, qmk]

/-! ### Data model (`types/priority-mapping.ts`, `types/recommendation.ts`)

The taxonomy types are reconstructed from their uses in
`priority-mapping-service.ts` and `test/mock-data.ts`: the category enum's
constructors are the twenty keys of the `categoryCounts` record literal. -/

inductive PoliticalCategory
  | EDUCATION | ECONOMY | HEALTHCARE | ENVIRONMENT | INFRASTRUCTURE
  | PUBLIC_SAFETY | SOCIAL_SERVICES | HOUSING | IMMIGRATION | FOREIGN_POLICY
  | CIVIL_RIGHTS | TAXATION | TECHNOLOGY | AGRICULTURE | ENERGY | DEFENSE
  | LABOR | TRANSPORTATION | CRIMINAL_JUSTICE | ELECTORAL_REFORM
deriving DecidableEq, Repr

structure PolicyApproach where
  name : String
  conflictingApproaches : Option (List String)
deriving DecidableEq, Repr

structure PoliticalIssue where
  id : String
  name : String
  category : PoliticalCategory
  synonyms : List String
  relatedTerms : List String
  weight : Q
  description : Option String := none
  policyApproaches : Option (List PolicyApproach) := none
  opposingIssues : Option (List String) := none
deriving DecidableEq, Repr

structure ConflictDefinition where
  issues : String × String
  reason : String
  severity : String
  type : String
  possibleCompromises : List String
deriving DecidableEq, Repr

structure IssueMatch where
  issue : PoliticalIssue
  confidence : Q
  matchedTerms : List String
deriving DecidableEq, Repr

structure MappedPriority where
  userPriority : String
  mappedIssues : List IssueMatch
deriving DecidableEq, Repr

inductive FlagType
  | extreme | out_of_scope
deriving DecidableEq, Repr

structure FlaggedPriority where
  userPriority : String
  flagType : FlagType
  reason : String
deriving DecidableEq, Repr

structure PriorityAnalysis where
  mappedPriorities : List MappedPriority
  dominantCategories : List PoliticalCategory
  potentialConflicts : List ConflictDefinition
  flaggedPriorities : List FlaggedPriority := []
deriving DecidableEq, Repr

/-! ### Mock taxonomy roster (`test/mock-data.ts`, `MOCK_POLITICAL_ISSUES`) -/

def issueTaxes : PoliticalIssue :=
  { id := "taxes", name := "Taxation", category := .ECONOMY,
    synonyms := ["tax", "taxes", "tax reform", "tax relief", "tax reduction"],
    relatedTerms := ["income tax", "property tax", "tax burden", "tax cuts", "lower taxes"],
    weight := qmk 1 1 }

def issueSmallBusiness : PoliticalIssue :=
  { id := "small_business", name := "Small Business Support", category := .ECONOMY,
    synonyms := ["small business", "business support", "entrepreneurship"],
    relatedTerms := ["local business", "business owners", "small business loans", "business regulation"],
    weight := qmk 9 10 }

def issuePublicEducation : PoliticalIssue :=
  { id := "public_education", name := "Public Education", category := .EDUCATION,
    synonyms := ["schools", "education", "public schools", "school funding"],
    relatedTerms := ["teachers", "students", "classrooms", "school quality", "better schools", "education funding"],
    weight := qmk 1 1 }

def issueEducationEquity : PoliticalIssue :=
  { id := "education_equity", name := "Education Equity", category := .EDUCATION,
    synonyms := ["fair education", "equal education", "access to education", "educational equality"],
    relatedTerms := ["achievement gap", "school funding equity", "education opportunity", "fair access to schools", "equitable school resources"],
    weight := qmk 9 10 }

def issueHealthcareAccess : PoliticalIssue :=
  { id := "healthcare_access", name := "Healthcare Access", category := .HEALTHCARE,
    synonyms := ["healthcare", "medical care", "health insurance", "affordable healthcare", "public health"],
    relatedTerms := ["doctor", "hospital", "medical costs", "health coverage", "healthcare reform", "health measures", "public health services"],
    weight := qmk 1 1 }

def issueClimateChange : PoliticalIssue :=
  { id := "climate_change", name := "Climate Change", category := .ENVIRONMENT,
    synonyms := ["global warming", "climate action", "climate crisis", "environmental protection", "water quality", "pollution control"],
    relatedTerms := ["carbon emissions", "climate policy", "clean energy", "green spaces", "park access", "urban greening", "water protection", "clean water", "industrial pollution", "emissions control"],
    weight := qmk 1 1 }

def issueRoadMaintenance : PoliticalIssue :=
  { id := "road_maintenance", name := "Road Maintenance", category := .INFRASTRUCTURE,
    synonyms := ["roads", "highways", "street repair"],
    relatedTerms := ["potholes", "road construction", "fix roads", "road quality", "neighborhood roads"],
    weight := qmk 8 10 }

def issueSocialEquity : PoliticalIssue :=
  { id := "social_equity", name := "Social Equity", category := .SOCIAL_SERVICES,
    synonyms := ["equity", "equality", "social justice", "fairness", "economic justice"],
    relatedTerms := ["equal opportunity", "fair treatment", "diversity", "inclusion", "justice", "fair hiring", "living wage", "worker protections", "equal pay", "environmental justice"],
    weight := qmk 9 10 }

def MOCK_POLITICAL_ISSUES : List PoliticalIssue :=
  [issueTaxes, issueSmallBusiness, issuePublicEducation, issueEducationEquity,
   issueHealthcareAccess, issueClimateChange, issueRoadMaintenance, issueSocialEquity]

/-- `MOCK_ISSUE_CONFLICTS[0]` -/
def conflictTaxesEducation : ConflictDefinition :=
  { issues := ("taxes", "public_education"),
    reason := "Lowering taxes may reduce funding available for public education",
    severity := "high", type := "resource",
    possibleCompromises := ["Targeted tax incentives for education", "Efficiency improvements in education spending"] }

/-- `MOCK_ISSUE_CONFLICTS[1]` -/
def conflictRoadsTaxes : ConflictDefinition :=
  { issues := ("road_maintenance", "taxes"),
    reason := "Infrastructure improvements require funding that may conflict with tax reduction goals",
    severity := "medium", type := "resource",
    possibleCompromises := ["Public-private partnerships for infrastructure", "Targeted infrastructure bonds"] }

def MOCK_ISSUE_CONFLICTS : List ConflictDefinition :=
  [conflictTaxesEducation, conflictRoadsTaxes]

/-! ### Keyword lookup (`test/mock-data.ts`, `findIssuesByKeywords`) -/

/-- One candidate-issue step of the standard keyword matching loop:
append `issue` when a synonym or related term matches bidirectionally
and the issue was not already collected. -/
def keywordIssueStep (nk : String) (res : List PoliticalIssue) (issue : PoliticalIssue) : List PoliticalIssue :=
  let mS := issue.synonyms.any (fun syn => strIncludes nk (lowerS syn) || strIncludes (lowerS syn) nk)
  let mR := issue.relatedTerms.any (fun t => strIncludes nk (lowerS t) || strIncludes (lowerS t) nk)
  if (mS || mR) && !(res.contains issue) then res ++ [issue] else res

/-- The "standard keyword matching" double loop of `findIssuesByKeywords`. -/
def standardMatches (keywords : List String) : List PoliticalIssue :=
  keywords.foldl
    (fun results keyword =>
      MOCK_POLITICAL_ISSUES.foldl (keywordIssueStep (trimS (lowerS keyword))) results)
    []

/-- Word-level test of the keyword-lookup fallback: does the (lower-case)
`word` occur in the issue's name, a synonym, or a related term? -/
def wordHit (word : List Char) (issue : PoliticalIssue) : Bool :=
  containsL (lowerL issue.name.data) word
  || issue.synonyms.any (fun s => containsL (lowerL s.data) word)
  || issue.relatedTerms.any (fun t => containsL (lowerL t.data) word)

/-- The fallback word loop of `findIssuesByKeywords`: first word of length ≥ 3
that hits an issue wins (issues scanned in roster order). -/
def wordFallbackFind : List (List Char) → Option PoliticalIssue
  | [] => none
  | w :: ws =>
    if w.length < 3 then wordFallbackFind ws
    else
      match MOCK_POLITICAL_ISSUES.find? (wordHit w) with
      | some i => some i
      | none => wordFallbackFind ws

def findIssuesByKeywords (keywords : List String) : List PoliticalIssue :=
  let joined := lowerS (joinSp keywords)
  if strIncludes joined "education" && strIncludes joined "equity" then
    MOCK_POLITICAL_ISSUES.filter (fun i => i.category = .EDUCATION || i.category = .SOCIAL_SERVICES)
  else if strIncludes joined "economic" && strIncludes joined "justice" then
    MOCK_POLITICAL_ISSUES.filter (fun i => i.category = .ECONOMY || i.category = .SOCIAL_SERVICES)
  else if strIncludes joined "environmental justice" then
    MOCK_POLITICAL_ISSUES.filter (fun i => i.category = .ENVIRONMENT || i.category = .SOCIAL_SERVICES)
  else if strIncludes joined "environment" || strIncludes joined "climate" then
    MOCK_POLITICAL_ISSUES.filter (fun i => i.category = .ENVIRONMENT || i.category = .HEALTHCARE)
  else if strIncludes joined "healthcare" || strIncludes joined "medical" then
    MOCK_POLITICAL_ISSUES.filter (fun i => i.category = .HEALTHCARE)
  else if (strIncludes joined "tax" && strIncludes joined "education")
          || (strIncludes joined "lower taxes" && strIncludes joined "funding") then
    MOCK_POLITICAL_ISSUES.filter (fun i => i.id = "taxes" || i.id = "public_education")
  else
    let results := standardMatches keywords
    if results.isEmpty then
      match wordFallbackFind (splitWs (lowerS (joinSp keywords)).data) with
      | some i => [i]
      | none => [issueTaxes]
    else results

/-- `detectConflicts` from `test/mock-data.ts`: keep the static mock conflicts
whose two issue ids are both present. -/
def detectConflicts (issues : List PoliticalIssue) : List ConflictDefinition :=
  let issueIds := issues.map (·.id)
  MOCK_ISSUE_CONFLICTS.filter
    (fun c => issueIds.contains c.issues.1 && issueIds.contains c.issues.2)

example : findIssuesByKeywords ["tax"] = [issueTaxes] := by decide
example : findIssuesByKeywords ["school funding"] = [issuePublicEducation, issueEducationEquity] := by decide
example : findIssuesByKeywords ["zzz qqq"] = [issueTaxes] := by decide
example : standardMatches ["zzz qqq"] = [] := by decide

/-! ### Priority mapper (`services/priority-mapping-service.ts`) -/

/-- One safety/scope pattern of `EXTREME_PRIORITY_PATTERNS`.  Each source
regex has the shape `/first\s+(alt1|alt2|…)/i`; `first` and `alts` are its
literal pieces, stored lower-case. -/
structure ExtremePattern where
  first : String
  alts : List String
  flagType : FlagType
  reason : String
deriving DecidableEq, Repr

def EXTREME_PRIORITY_PATTERNS : List ExtremePattern :=
  [⟨"imprison", ["judges", "officials"], .extreme, "Advocates for potentially extra-judicial actions."⟩,
   ⟨"trade", ["war"], .extreme, "Suggests a drastic and potentially harmful economic policy."⟩,
   ⟨"gold", ["standard"], .out_of_scope, "Represents a niche economic theory not typically covered."⟩,
   ⟨"abolish", ["taxes", "government"], .extreme, "Suggests a fundamental dismantling of core government functions."⟩]

/-- Does `first ++ ⟨whitespace run⟩ ++ alt` (for some `alt`) start at the head
of `t`?  (The alternatives start with non-whitespace characters, so matching
the maximal whitespace run is equivalent to the regex's `\s+`.) -/
def matchWsSeqAt (first : List Char) (alts : List (List Char)) (t : List Char) : Bool :=
  startsWithL t first &&
    match t.drop first.length with
    | [] => false
    | c :: rest =>
      isWsChar c && alts.any (fun a => startsWithL ((c :: rest).dropWhile isWsChar) a)

/-- Does `first\s+(alt1|…)` match anywhere in `t`? -/
def matchWsSeq (first : List Char) (alts : List (List Char)) : List Char → Bool
  | [] => false
  | c :: t => matchWsSeqAt first alts (c :: t) || matchWsSeq first alts (t)

/-- `pattern.test(text)` for one case-insensitive source pattern. -/
def patternTest (p : ExtremePattern) (text : String) : Bool :=
  matchWsSeq p.first.data (p.alts.map (·.data)) (lowerL text.data)

/-- `priority.trim().length === 0` -/
def isBlank (p : String) : Bool := (trimL p.data).isEmpty

/-- The first pattern (in declaration order) matching the priority, if any. -/
def firstPattern (p : String) : Option ExtremePattern :=
  EXTREME_PRIORITY_PATTERNS.find? (fun pat => patternTest pat p)

/-- The flagging loop at the head of `analyzePriorities`: returns the flagged
priorities and the priorities that remain to be mapped, both in input order. -/
def classifyPriorities : List String → List FlaggedPriority × List String
  | [] => ([], [])
  | p :: rest =>
    let r := classifyPriorities rest
    if isBlank p then r
    else
      match firstPattern p with
      | some pat => (⟨p, pat.flagType, pat.reason⟩ :: r.1, r.2)
      | none => (r.1, p :: r.2)

/-- The issue-record literal pushed by the (unreachable) second
climate-handling block inside `analyzePriorities`. -/
def climateIssueLiteral : PoliticalIssue :=
  { id := "climate-change", name := "Climate Change",
    description := some "Policies related to addressing climate change and environmental protection",
    category := .ENVIRONMENT,
    synonyms := ["climate", "environment", "green", "sustainability"],
    relatedTerms := ["global warming", "carbon emissions", "renewable energy"],
    weight := qmk 1 1 }

/-- The body of the `validPrioritiesToMap.map` callback in `analyzePriorities`
after its first (early-return) climate special case. -/
def mapValidPriorityRest (priority : String) : MappedPriority :=
  let base := findIssuesByKeywords [priority]
  let matchingIssues :=
    if strIncludes (lowerS priority) "climate" && !(base.any (fun i => i.id = "climate-change")) then
      base ++ [climateIssueLiteral]
    else base
  if matchingIssues.isEmpty then
    let words := splitWs (lowerS priority).data
    let fallbackIssues := MOCK_POLITICAL_ISSUES.filter (fun issue =>
      words.any (fun w =>
        containsL (lowerL issue.name.data) w
        || issue.synonyms.any (fun syn => containsL (lowerL syn.data) w)))
    let issueToUse :=
      match fallbackIssues with
      | i :: _ => i
      | [] => issueTaxes       -- MOCK_POLITICAL_ISSUES[0]
    ⟨priority, [⟨issueToUse, qmk 5 10, [priority]⟩]⟩
  else
    ⟨priority, matchingIssues.map (fun i => ⟨i, qmk 8 10, [priority]⟩)⟩

/-- The full `validPrioritiesToMap.map` callback of `analyzePriorities`. -/
def mapValidPriority (priority : String) : MappedPriority :=
  if strIncludes (lowerS priority) "climate" then
    match MOCK_POLITICAL_ISSUES.find? (fun i => i.id = "climate_change") with
    | some ci => ⟨priority, [⟨ci, qmk 9 10, ["climate change", "climate"]⟩]⟩
    | none => mapValidPriorityRest priority
  else mapValidPriorityRest priority

def includesLower (p sub : String) : Bool := strIncludes (lowerS p) sub

/-- Contribution of one mapped priority to `categoryCounts[cat]`: one per
mapped issue of that category, plus the compound-phrase boosts. -/
def mappedPriorityTally (mp : MappedPriority) (cat : PoliticalCategory) : Nat :=
  (mp.mappedIssues.filter (fun mi => mi.issue.category = cat)).length
  + (if includesLower mp.userPriority "economic justice" || includesLower mp.userPriority "advocate" then
       (if cat = .SOCIAL_SERVICES || cat = .ECONOMY then 1 else 0)
     else 0)
  + (if includesLower mp.userPriority "environmental health" then
       (if cat = .SOCIAL_SERVICES || cat = .ENVIRONMENT || cat = .HEALTHCARE then 1 else 0)
     else 0)

def categoryTally (mps : List MappedPriority) (cat : PoliticalCategory) : Nat :=
  (mps.map (fun mp => mappedPriorityTally mp cat)).sum

/-- The key order of the `categoryCounts` record literal, which is the
iteration order of `Object.entries` over it. -/
def ALL_CATEGORIES_IN_ORDER : List PoliticalCategory :=
  [.EDUCATION, .ECONOMY, .HEALTHCARE, .ENVIRONMENT, .INFRASTRUCTURE,
   .PUBLIC_SAFETY, .SOCIAL_SERVICES, .HOUSING, .IMMIGRATION, .FOREIGN_POLICY,
   .CIVIL_RIGHTS, .TAXATION, .TECHNOLOGY, .AGRICULTURE, .ENERGY, .DEFENSE,
   .LABOR, .TRANSPORTATION, .CRIMINAL_JUSTICE, .ELECTORAL_REFORM]

/-- `dominantCategories`: entries with positive count, stably sorted by
descending count, first three, category components. -/
def dominantCategoriesOf (mps : List MappedPriority) : List PoliticalCategory :=
  let entries := ALL_CATEGORIES_IN_ORDER.map (fun c => (c, categoryTally mps c))
  let pos := entries.filter (fun e => 0 < e.2)
  ((List.insertionSort (fun a b : PoliticalCategory × Nat => b.2 ≤ a.2) pos).take 3).map (·.1)

/-- `PriorityMappingService.analyzePriorities`. -/
def analyzePriorities (priorities : List String) : PriorityAnalysis :=
  let cls := classifyPriorities priorities
  let mapped := cls.2.map mapValidPriority
  let allIssues := (mapped.map (fun mp => mp.mappedIssues.map (·.issue))).flatten
  { mappedPriorities := mapped,
    dominantCategories := dominantCategoriesOf mapped,
    potentialConflicts := detectConflicts allIssues,
    flaggedPriorities := cls.1 }

/-! #### The unused per-term scoring helpers

`calculateTermMatch` and `mapSinglePriority` exist in
`priority-mapping-service.ts` but `analyzePriorities` never invokes them;
they are embedded here so that their scoring formula can be compared with the
confidences the service actually produces. -/

/-- `Math.max` on two fractions. -/
def qmax (a b : Q) : Q := if Q.lt a b then b else a

/-- `normalizeText`: `text.toLowerCase().trim()`. -/
def normalizeText (s : String) : String := trimS (lowerS s)

/-- `calculateTermMatch`: best partial-match signal of a priority against a
term list — `(term.length / priority.length)`, boosted by `1.2` when the
match sits at the start of the (normalized) priority. -/
def calculateTermMatch (priority : String) (terms : List String) : Q :=
  let normalizedPriority := normalizeText priority
  terms.foldl
    (fun maxScore term =>
      let normalizedTerm := normalizeText term
      if strIncludes normalizedPriority normalizedTerm then
        qmax maxScore
          (Q.mul (qmk term.data.length priority.data.length)
            (if strStartsWith normalizedPriority normalizedTerm then qmk 12 10 else qmk 1 1))
      else maxScore)
    (qmk 0 1)

/-- The confidence `mapSinglePriority` would assign to one issue:
`Math.max(synonymMatch, termMatch * issue.weight)` with `synonymMatch = 1`
exactly when the normalized priority equals a normalized synonym. -/
def mapSingleIssueScore (priority : String) (issue : PoliticalIssue) : Q :=
  let synonymMatch :=
    if issue.synonyms.any (fun syn => normalizeText priority = normalizeText syn) then qmk 1 1
    else qmk 0 1
  qmax synonymMatch
    (Q.mul (calculateTermMatch priority (issue.synonyms ++ issue.relatedTerms)) issue.weight)

example : patternTest ⟨"gold", ["standard"], .out_of_scope, "r"⟩ "Return to the Gold  Standard" = true := by decide
example : patternTest ⟨"trade", ["war"], .extreme, "r"⟩ "fair trade warranty" = true := by decide
example : firstPattern "lower taxes" = none := by decide
example : (analyzePriorities ["tax"]).mappedPriorities
    = [⟨"tax", [⟨issueTaxes, qmk 8 10, ["tax"]⟩]⟩] := by decide
example : mapSingleIssueScore "tax" issueTaxes = Q.mul (qmk 3 3) (qmk 12 10) := by decide
example : (analyzePriorities ["Climate change matters"]).mappedPriorities
    = [⟨"Climate change matters", [⟨issueClimateChange, qmk 9 10, ["climate change", "climate"]⟩]⟩] := by decide

/-! ### Candidates and ballot measures (`types/recommendation.ts`, `test/test-helpers.ts`) -/

inductive Stance
  | support | oppose | neutral
deriving DecidableEq, Repr

structure CandidatePosition where
  issue : String
  stance : Stance
  strength : Q
deriving DecidableEq, Repr

structure Candidate where
  id : String
  name : String
  party : String
  office : String
  positions : List CandidatePosition
deriving DecidableEq, Repr

structure CandidateMatch where
  candidate : Candidate
  alignmentScore : Q
  matchedPriorities : List String
  rationale : String
deriving DecidableEq, Repr

structure BallotMeasure where
  id : String
  title : String
  description : String
  applicableLocations : List String
  supporters : List String
  opposers : List String
  categories : List String
deriving DecidableEq, Repr

structure MeasureImpactAnalysis where
  positiveImpacts : List String
  negativeImpacts : List String
  uncertainImpacts : List String
deriving DecidableEq, Repr

structure BallotMeasureMatch where
  ballotMeasure : BallotMeasure
  relevanceScore : Q
  relevantPriorities : List String
  explanation : String
  pros : List String
  cons : List String
  impactAnalysis : MeasureImpactAnalysis
  isFallback : Bool
deriving DecidableEq, Repr

def candidateJaneSmith : Candidate :=
  { id := "candidate-1", name := "Jane Smith", party := "Democrat", office := "President",
    positions :=
      [⟨"Healthcare Reform", .support, qmk 9 10⟩,
       ⟨"Environmental Protection", .support, qmk 8 10⟩,
       ⟨"Tax Reform", .neutral, qmk 5 10⟩] }

def candidateJohnDoe : Candidate :=
  { id := "candidate-2", name := "John Doe", party := "Republican", office := "President",
    positions :=
      [⟨"Tax Reform", .support, qmk 9 10⟩,
       ⟨"Second Amendment", .support, qmk 9 10⟩,
       ⟨"Healthcare Reform", .oppose, qmk 7 10⟩] }

def candidateSamJohnson : Candidate :=
  { id := "candidate-3", name := "Sam Johnson", party := "Independent", office := "Senator",
    positions :=
      [⟨"Environmental Protection", .support, qmk 9 10⟩,
       ⟨"Education Funding", .support, qmk 8 10⟩,
       ⟨"Tax Reform", .support, qmk 6 10⟩] }

def createMockCandidates : List Candidate :=
  [candidateJaneSmith, candidateJohnDoe, candidateSamJohnson]

def measureEducationFunding : BallotMeasure :=
  { id := "measure-1", title := "Prop 123: Education Funding",
    description := "Increases funding for public schools through a 0.5% sales tax",
    applicableLocations := ["94110", "94103", "94107"],
    supporters := ["Teachers Union", "Parents Association"],
    opposers := ["Taxpayers Association", "Small Business Federation"],
    categories := ["EDUCATION", "ECONOMY"] }

def measureTransitExpansion : BallotMeasure :=
  { id := "measure-2", title := "Prop 456: Transit Expansion",
    description := "Authorizes $500M bond for public transit improvements",
    applicableLocations := ["94110", "94103", "10001", "10002"],
    supporters := ["Transit Advocates", "Climate Action Group"],
    opposers := ["Taxpayers Association"],
    categories := ["INFRASTRUCTURE", "ENVIRONMENT"] }

def measureHealthcareAccessNY : BallotMeasure :=
  { id := "measure-3", title := "Prop 789: Healthcare Access (NY Only)",
    description := "Expands healthcare access for low-income residents in NY",
    applicableLocations := ["10001", "10002", "10003"],
    supporters := ["Healthcare Workers Union NY", "Community Clinics Association NY"],
    opposers := ["Chamber of Commerce NY"],
    categories := ["HEALTHCARE", "SOCIAL_SERVICES"] }

def createMockBallotMeasures : List BallotMeasure :=
  [measureEducationFunding, measureTransitExpansion, measureHealthcareAccessNY]

/-! ### Candidate matcher (`services/candidate-matching-service.ts`) -/

/-- `new Set()` insertion: append if not already present (JavaScript sets
iterate in insertion order, and `Array.from` preserves that order). -/
def insertUnique (l : List String) (s : String) : List String :=
  if l.contains s then l else l ++ [s]

/-- The bidirectional case-insensitive containment test between a declared
position's issue label and a priority text. -/
def posHit (position : CandidatePosition) (priority : String) : Bool :=
  strIncludes (lowerS priority) (lowerS position.issue)
  || strIncludes (lowerS position.issue) (lowerS priority)

/-- One priority-step of the inner scoring loop of `findMatchingCandidates`:
on a hit, add `0.2 * position.strength` and record the priority. -/
def candidateScoreStep (position : CandidatePosition) (acc : Q × List String)
    (priority : String) : Q × List String :=
  if posHit position priority then
    (Q.add acc.1 (Q.mul (qmk 2 10) position.strength), insertUnique acc.2 priority)
  else acc

/-- The nested position/priority scoring loop of `findMatchingCandidates`:
accumulates `0.2 * position.strength` per hit and the set of hit priorities. -/
def candidateScoreFold (userPriorities : List String) (positions : List CandidatePosition) :
    Q × List String :=
  positions.foldl
    (fun acc position => userPriorities.foldl (candidateScoreStep position) acc)
    (qmk 0 1, [])

/-- The per-candidate body of `findMatchingCandidates`, including the clamp,
the hardcoded name-keyed score overrides and the rationale construction. -/
def candidateMatchFor (userPriorities : List String) (priorityKeywords : String)
    (candidate : Candidate) : CandidateMatch :=
  let fold := candidateScoreFold userPriorities candidate.positions
  let s0 := qmin (qmk 1 1) fold.1
  let s1 :=
    if strIncludes priorityKeywords "climate" && candidate.name = "Sam Johnson" then qmk 9 10
    else if strIncludes priorityKeywords "tax" && candidate.name = "John Doe" then qmk 85 100
    else if strIncludes priorityKeywords "healthcare" && candidate.name = "Jane Smith" then qmk 8 10
    else s0
  let s2 :=
    if strIncludes priorityKeywords "extremely specific" || userPriorities.isEmpty then qmk 3 10
    else s1
  let matchedArr := fold.2
  let r0 := candidate.name ++ " aligns with your priorities"
  let rationale :=
    if !matchedArr.isEmpty then r0 ++ " on " ++ joinAnd matchedArr
    else if !userPriorities.isEmpty then r0 ++ " on " ++ userPriorities.headD ""
    else r0
  { candidate := candidate, alignmentScore := s2,
    matchedPriorities := if !matchedArr.isEmpty then matchedArr else userPriorities.take 1,
    rationale := rationale }

/-- `CandidateMatchingService.findMatchingCandidates` (its `options` argument
is never read by the body and is omitted). -/
def findMatchingCandidates (priorityAnalysis : PriorityAnalysis) : List CandidateMatch :=
  let userPriorities := priorityAnalysis.mappedPriorities.map (·.userPriority)
  let priorityKeywords := lowerS (joinSp userPriorities)
  let matchList := createMockCandidates.map (candidateMatchFor userPriorities priorityKeywords)
  List.insertionSort (fun a b : CandidateMatch => Q.le b.alignmentScore a.alignmentScore = true) matchList

/-! ### Measure matcher (`services/ballot-measure-service.ts`) -/

/-- The nested category/priority scoring loop of `findRelevantMeasures`:
starts at `0.5`, accumulates `0.1` per hit plus the set of hit priorities. -/
def measureScoreFold (userPriorities : List String) (measure : BallotMeasure) :
    Q × List String :=
  measure.categories.foldl
    (fun acc category =>
      userPriorities.foldl
        (fun acc2 priority =>
          if strIncludes (lowerS priority) (lowerS category)
             || strIncludes (lowerS measure.title) (lowerS priority)
             || strIncludes (lowerS measure.description) (lowerS priority) then
            (Q.add acc2.1 (qmk 1 10), insertUnique acc2.2 priority)
          else acc2)
        acc)
    (qmk 5 10, [])

/-- The per-measure body of `findRelevantMeasures`, including the clamp, the
hardcoded title-keyed score overrides and the explanation construction. -/
def measureMatchFor (userPriorities : List String) (priorityKeywords : String)
    (isFallback : Bool) (measure : BallotMeasure) : BallotMeasureMatch :=
  let fold := measureScoreFold userPriorities measure
  let s0 := qmin (qmk 1 1) fold.1
  let s1 :=
    if strIncludes priorityKeywords "transport" && strIncludes measure.title "Transit" then qmk 9 10
    else if strIncludes priorityKeywords "education" && strIncludes measure.title "Education" then qmk 85 100
    else if strIncludes priorityKeywords "healthcare" && strIncludes measure.title "Healthcare" then qmk 8 10
    else s0
  let s2 :=
    if strIncludes priorityKeywords "extremely specific" || userPriorities.isEmpty then qmk 3 10
    else s1
  let relevantArr := fold.2
  let e0 := "This measure relates to " ++ lowerS (measure.categories.headD "")
  let explanation :=
    if !relevantArr.isEmpty then e0 ++ " which aligns with your priority of " ++ relevantArr.headD ""
    else if !userPriorities.isEmpty then e0 ++ " which may be relevant to your interest in " ++ userPriorities.headD ""
    else e0
  { ballotMeasure := measure, relevanceScore := s2,
    relevantPriorities := if !relevantArr.isEmpty then relevantArr else userPriorities.take 1,
    explanation := explanation,
    pros := ["Could benefit local communities", "Addresses important issues"],
    cons := ["May increase costs", "Implementation challenges exist"],
    impactAnalysis :=
      ⟨["Could improve quality of life", "May address key community needs"],
       ["Potential tax implications", "May have unintended consequences"],
       ["Long-term effects unclear", "Implementation timeline uncertain"]⟩,
    isFallback := isFallback }

/-- `BallotMeasureService.findRelevantMeasures` (its `options` argument is
never read by the body and is omitted). -/
def findRelevantMeasures (priorityAnalysis : PriorityAnalysis) (zipCode : String) :
    List BallotMeasureMatch :=
  let allMeasures := createMockBallotMeasures
  let userPriorities := priorityAnalysis.mappedPriorities.map (·.userPriority)
  let priorityKeywords := lowerS (joinSp userPriorities)
  let locationMeasures := allMeasures.filter (fun m => m.applicableLocations.contains zipCode)
  let measures := if !locationMeasures.isEmpty then locationMeasures else allMeasures
  let isFallback := locationMeasures.isEmpty || zipCode = "00000"
  let result := measures.map (measureMatchFor userPriorities priorityKeywords isFallback)
  List.insertionSort (fun a b : BallotMeasureMatch => Q.le b.relevanceScore a.relevanceScore = true) result

example :
    ((findRelevantMeasures (analyzePriorities ["school funding"]) "94110").map
      (fun m => m.ballotMeasure.id)) = ["measure-1", "measure-2"] := by decide
example :
    ((findRelevantMeasures (analyzePriorities ["school funding"]) "99999").map
      (fun m => m.isFallback)) = [true, true, true] := by decide
example :
    ((findMatchingCandidates (analyzePriorities ["Environmental protection"])).map
      (fun m => m.candidate.name)) = ["Sam Johnson", "Jane Smith", "John Doe"] := by decide

/-! ### Orchestrator (`services/recommendation-service.ts`)

The orchestrator takes its three collaborating services as constructor
arguments; they are modelled as a bundle of functions returning
`Except String _` so that a throwing service is an `Except.error` carrying
the error message.  The result cache and the in-place sorting of the caller's
`priorities` array are modelled by explicit state passing: a call returns the
result, the updated cache, the caller-visible request after the call, and how
often each of the three services was invoked. -/

inductive Mode
  | current | demo
deriving DecidableEq, Repr

structure RecommendationRequest where
  priorities : List String
  zipCode : String
  mode : Mode
deriving DecidableEq, Repr

structure PolicyRecommendations where
  topPolicies : List String
  explanation : String
deriving DecidableEq, Repr

/-- The presentation shape produced for one candidate in step 5. -/
structure CandidateCard where
  name : String
  office : String
  party : String
  positionSummary : String
  platformHighlights : List String
  rationale : String
  officialWebsite : String
  alignmentScore : Q
  alignment : String
deriving DecidableEq, Repr

/-- The presentation shape produced for one ballot measure in step 5. -/
structure MeasureCard where
  title : String
  description : String
  supporters : List String
  opposers : List String
  explanation : String
  relevanceScore : Q
  ballotpediaLink : String
deriving DecidableEq, Repr

structure RecommendationsResult where
  candidates : List CandidateCard
  ballotMeasures : List MeasureCard
  policyRecommendations : PolicyRecommendations
  error : Option String := none
deriving DecidableEq, Repr

def stanceSummaryWord : Stance → String
  | .support => "Supports"
  | .oppose => "Opposes"
  | .neutral => "Neutral on"

/-- `generatePositionSummary` (the null guards of the source cannot fire:
every modelled candidate has positions). -/
def generatePositionSummary (candidate : Candidate) : String :=
  joinComma ((candidate.positions.take 3).map
    (fun p => stanceSummaryWord p.stance ++ " " ++ lowerS p.issue))

/-- `generatePlatformHighlights`. -/
def generatePlatformHighlights (candidate : Candidate) : List String :=
  candidate.positions.map (fun p => stanceSummaryWord p.stance ++ " " ++ p.issue)

/-- Worker for `replaceWsDash` (`lastWs` tracks an ongoing whitespace run). -/
def wsToDashGo : List Char → Bool → List Char
  | [], _ => []
  | c :: rest, lastWs =>
    if isWsChar c then
      if lastWs then wsToDashGo rest true
      else '-' :: wsToDashGo rest true
    else c :: wsToDashGo rest false

/-- `s.replace(/\s+/g, '-')` -/
def replaceWsDash (s : String) : String := ⟨wsToDashGo s.data false⟩

def candidateCard (m : CandidateMatch) : CandidateCard :=
  { name := m.candidate.name, office := m.candidate.office, party := m.candidate.party,
    positionSummary := generatePositionSummary m.candidate,
    platformHighlights := generatePlatformHighlights m.candidate,
    rationale := m.rationale,
    officialWebsite := "https://example.com/" ++ replaceWsDash (lowerS m.candidate.name),
    alignmentScore := m.alignmentScore,
    alignment :=
      if Q.lt (qmk 7 10) m.alignmentScore then "✅"
      else if Q.lt (qmk 4 10) m.alignmentScore then "⚠️"
      else "❌" }

def measureCard (m : BallotMeasureMatch) : MeasureCard :=
  { title := m.ballotMeasure.title, description := m.ballotMeasure.description,
    supporters := m.ballotMeasure.supporters, opposers := m.ballotMeasure.opposers,
    explanation := m.explanation, relevanceScore := m.relevanceScore,
    ballotpediaLink := "https://ballotpedia.org/example/" ++ m.ballotMeasure.id }

/-- `generatePolicyRecommendations`: original priority texts of the mapped
priorities, with a sentinel when the list is empty. -/
def generatePolicyRecommendations (priorityAnalysis : PriorityAnalysis) : PolicyRecommendations :=
  let topPolicies := priorityAnalysis.mappedPriorities.map (·.userPriority)
  ⟨if topPolicies.isEmpty then ["No specific policy focus identified from priorities."]
    else topPolicies,
   "These recommendations are based on your stated priorities."⟩

/-- The `isTestRequest` predicate at the head of `generateRecommendations`. -/
def isTestRequest (request : RecommendationRequest) : Bool :=
  request.priorities.any (fun p =>
    strIncludes (lowerS p) "test"
    || strIncludes (lowerS p) "mock"
    || lowerS p = "extremely specific")

/-- Lexicographic comparison of character lists: JavaScript's default string
comparison works on UTF-16 code units, which on the ASCII data of this code
base is exactly this code-point order. -/
def lexLeL : List Char → List Char → Bool
  | [], _ => true
  | _ :: _, [] => false
  | a :: as, b :: bs => if a < b then true else if b < a then false else lexLeL as bs

/-- JavaScript's default string comparison, as a total order on strings. -/
def jsLeStr (a b : String) : Bool := lexLeL a.data b.data

/-- `request.priorities.sort()`: JavaScript's default lexicographic string
sort (in place in the source; the mutation is made explicit in
`generateRecommendations`). -/
def sortStrings (l : List String) : List String :=
  List.insertionSort (fun a b : String => jsLeStr a b = true) l

/-- `generateCacheKey` serializes `{priorities: request.priorities.sort(),
zipCode, mode}` with `JSON.stringify`, which is injective on this shape, so
the key is modelled as the canonical triple itself. -/
abbrev CacheKey := List String × String × Mode

def generateCacheKey (request : RecommendationRequest) : CacheKey :=
  (sortStrings request.priorities, request.zipCode, request.mode)

abbrev Cache := List (CacheKey × RecommendationsResult)

def lookupCache (cache : Cache) (key : CacheKey) : Option RecommendationsResult :=
  match cache.find? (fun e => e.1 == key) with
  | some e => some e.2
  | none => none

/-- The three injected services, each possibly throwing. -/
structure Services where
  analyzePriorities : List String → Except String PriorityAnalysis
  findMatchingCandidates : PriorityAnalysis → Mode → String → Except String (List CandidateMatch)
  findRelevantMeasures : PriorityAnalysis → String → Mode → Except String (List BallotMeasureMatch)

/-- Outcome of the `try { … } catch { … }` body: its result, whether the
outer `catch` was taken (`fatal` — in that case the result is not cached),
and how often each service was invoked. -/
structure PipelineOutcome where
  result : RecommendationsResult
  fatal : Bool
  mapperCalls : Nat
  candidateCalls : Nat
  measureCalls : Nat
deriving Repr

/-- The value returned by the outer `catch` block. -/
def fatalErrorResult (msg : String) : RecommendationsResult :=
  { candidates := [], ballotMeasures := [],
    policyRecommendations :=
      ⟨[], "Unable to generate recommendations due to an error."⟩,
    error := some msg }

/-- Step 5 of `generateRecommendations`: presentation mapping plus the
spread of `candidateError` into `error`. -/
def assembleResult (cands : List CandidateMatch) (measures : List BallotMeasureMatch)
    (priorityAnalysis : PriorityAnalysis) (candidateError : Option String) :
    RecommendationsResult :=
  { candidates := cands.map candidateCard,
    ballotMeasures := measures.map measureCard,
    policyRecommendations := generatePolicyRecommendations priorityAnalysis,
    error := candidateError }

/-- Steps 1–5 of `generateRecommendations` (the body of the outer `try`,
together with the outer `catch`).  A candidate-matcher failure is recorded in
`candidateError` — except on the `throw_error` test path, where it is
re-thrown into the outer `catch`.  A measure-matcher failure only leaves
`ballotMeasureMatches` empty. -/
def runPipeline (svc : Services) (testReq : Bool) (priorities : List String)
    (zipCode : String) (mode : Mode) : PipelineOutcome :=
  match svc.analyzePriorities priorities with
  | .error e => ⟨fatalErrorResult e, true, 1, 0, 0⟩
  | .ok priorityAnalysis =>
    match svc.findMatchingCandidates priorityAnalysis mode zipCode with
    | .error e =>
      if testReq && priorities.contains "throw_error" then
        ⟨fatalErrorResult e, true, 1, 1, 0⟩
      else
        match svc.findRelevantMeasures priorityAnalysis zipCode mode with
        | .ok ms => ⟨assembleResult [] ms priorityAnalysis (some e), false, 1, 1, 1⟩
        | .error _ => ⟨assembleResult [] [] priorityAnalysis (some e), false, 1, 1, 1⟩
    | .ok cands =>
      match svc.findRelevantMeasures priorityAnalysis zipCode mode with
      | .ok ms => ⟨assembleResult cands ms priorityAnalysis none, false, 1, 1, 1⟩
      | .error _ => ⟨assembleResult cands [] priorityAnalysis none, false, 1, 1, 1⟩

/-- Everything one call of `generateRecommendations` produces or mutates. -/
structure CallOutcome where
  result : RecommendationsResult
  cache : Cache
  requestAfter : RecommendationRequest
  mapperCalls : Nat
  candidateCalls : Nat
  measureCalls : Nat
deriving Repr

/-- `RecommendationService.generateRecommendations`.  For non-test requests
the first `generateCacheKey` call sorts `request.priorities` in place before
anything else runs, so the pipeline (and the caller afterwards) sees the
sorted array; test requests bypass both cache lookup and cache write. -/
def generateRecommendations (svc : Services) (cache : Cache)
    (request : RecommendationRequest) : CallOutcome :=
  if isTestRequest request then
    let p := runPipeline svc true request.priorities request.zipCode request.mode
    ⟨p.result, cache, request, p.mapperCalls, p.candidateCalls, p.measureCalls⟩
  else
    let sorted := sortStrings request.priorities
    let requestAfter : RecommendationRequest := ⟨sorted, request.zipCode, request.mode⟩
    let key : CacheKey := (sorted, request.zipCode, request.mode)
    match lookupCache cache key with
    | some r => ⟨r, cache, requestAfter, 0, 0, 0⟩
    | none =>
      let p := runPipeline svc false sorted request.zipCode request.mode
      let cache2 := if p.fatal then cache else (key, p.result) :: cache
      ⟨p.result, cache2, requestAfter, p.mapperCalls, p.candidateCalls, p.measureCalls⟩

/-- Two sequential calls against the same service instance. -/
def twoCalls (svc : Services) (cache : Cache) (r1 r2 : RecommendationRequest) :
    CallOutcome × CallOutcome :=
  let o1 := generateRecommendations svc cache r1
  (o1, generateRecommendations svc o1.cache r2)

/-- The real (never-throwing) service implementations. -/
def realServices : Services :=
  { analyzePriorities := fun ps => .ok (analyzePriorities ps),
    findMatchingCandidates := fun a _ _ => .ok (findMatchingCandidates a),
    findRelevantMeasures := fun a zip _ => .ok (findRelevantMeasures a zip) }

example :
    (generateRecommendations realServices [] ⟨["tax"], "94110", .current⟩).result.error
      = none := by decide
example :
    (generateRecommendations realServices [] ⟨["b", "a"], "94110", .current⟩).requestAfter.priorities
      = ["a", "b"] := by decide

/-! ### Order-theoretic facts about the JavaScript string comparison -/

lemma lexLeL_total (l1 : List Char) : ∀ l2, lexLeL l1 l2 = true ∨ lexLeL l2 l1 = true := by
  induction l1 with
  | nil => intro l2; left; rfl
  | cons a as ih =>
    intro l2
    cases l2 with
    | nil => right; rfl
    | cons b bs =>
      rcases lt_trichotomy a b with h | h | h
      · left; simp [lexLeL, h]
      · subst h
        rcases ih bs with h2 | h2
        · left; simpa [lexLeL, lt_irrefl] using h2
        · right; simpa [lexLeL, lt_irrefl] using h2
      · right; simp [lexLeL, h]

lemma lexLeL_trans (l1 : List Char) :
    ∀ l2 l3, lexLeL l1 l2 = true → lexLeL l2 l3 = true → lexLeL l1 l3 = true := by
  induction l1 with
  | nil => intro l2 l3 _ _; rfl
  | cons a as ih =>
    intro l2 l3 h12 h23
    cases l2 with
    | nil => simp [lexLeL] at h12
    | cons b bs =>
      cases l3 with
      | nil => simp [lexLeL] at h23
      | cons c cs =>
        rcases lt_trichotomy a b with hab | hab | hab
        · rcases lt_trichotomy b c with hbc | hbc | hbc
          · have hac : a < c := lt_trans hab hbc
            simp [lexLeL, hac]
          · subst hbc; simp [lexLeL, hab]
          · simp [lexLeL, lt_asymm hbc, hbc] at h23
        · subst hab
          rcases lt_trichotomy a c with hac | hac | hac
          · simp [lexLeL, hac]
          · subst hac
            simp [lexLeL, lt_irrefl] at h12 h23 ⊢
            exact ih bs cs h12 h23
          · simp [lexLeL, lt_asymm hac, hac] at h23
        · simp [lexLeL, lt_asymm hab, hab] at h12

lemma lexLeL_antisymm (l1 : List Char) :
    ∀ l2, lexLeL l1 l2 = true → lexLeL l2 l1 = true → l1 = l2 := by
  induction l1 with
  | nil =>
    intro l2 _ h21
    cases l2 with
    | nil => rfl
    | cons b bs => simp [lexLeL] at h21
  | cons a as ih =>
    intro l2 h12 h21
    cases l2 with
    | nil => simp [lexLeL] at h12
    | cons b bs =>
      rcases lt_trichotomy a b with hab | hab | hab
      · simp [lexLeL, lt_asymm hab, hab] at h21
      · subst hab
        simp [lexLeL, lt_irrefl] at h12 h21
        rw [ih bs h12 h21]
      · simp [lexLeL, lt_asymm hab, hab] at h12

instance : IsTotal String (fun a b => jsLeStr a b = true) :=
  ⟨fun a b => lexLeL_total a.data b.data⟩

instance : IsTrans String (fun a b => jsLeStr a b = true) :=
  ⟨fun a b c => lexLeL_trans a.data b.data c.data⟩

instance : IsAntisymm String (fun a b => jsLeStr a b = true) :=
  ⟨fun a b h1 h2 => by
    have h := lexLeL_antisymm a.data b.data h1 h2
    cases a
    cases b
    exact congrArg String.mk h⟩

lemma sortStrings_perm (l : List String) : (sortStrings l).Perm l :=
  List.perm_insertionSort _ l

lemma sortStrings_sorted (l : List String) :
    List.Sorted (fun a b => jsLeStr a b = true) (sortStrings l) :=
  List.sorted_insertionSort _ l

lemma sortStrings_eq_of_perm {l1 l2 : List String} (h : l1.Perm l2) :
    sortStrings l1 = sortStrings l2 :=
  List.eq_of_perm_of_sorted
    ((sortStrings_perm l1).trans (h.trans (sortStrings_perm l2).symm))
    (sortStrings_sorted l1) (sortStrings_sorted l2)

lemma perm_of_sortStrings_eq {l1 l2 : List String} (h : sortStrings l1 = sortStrings l2) :
    l1.Perm l2 :=
  (sortStrings_perm l1).symm.trans (h ▸ sortStrings_perm l2)

/-! ### Structural facts about the keyword lookup -/

/-- A left fold whose step preserves a predicate on the accumulator's
elements (the step may use membership of the scanned element in the list). -/
lemma foldl_mem_inv {α β : Type} (P : α → Prop) (f : List α → β → List α) :
    ∀ (l : List β), (∀ acc b, b ∈ l → (∀ x ∈ acc, P x) → ∀ x ∈ f acc b, P x) →
      ∀ acc, (∀ x ∈ acc, P x) → ∀ x ∈ l.foldl f acc, P x := by
  intro l
  induction l with
  | nil => intro _ acc hacc x hx; exact hacc x hx
  | cons b bs ih =>
    intro hf acc hacc x hx
    exact ih (fun acc2 b2 hb2 => hf acc2 b2 (List.mem_cons_of_mem _ hb2)) (f acc b)
      (hf acc b (List.mem_cons_self _ _) hacc) x hx

lemma keywordIssueStep_mem {P : PoliticalIssue → Prop} (nk : String) (acc : List PoliticalIssue)
    (issue : PoliticalIssue) (hacc : ∀ x ∈ acc, P x) (hissue : P issue) :
    ∀ x ∈ keywordIssueStep nk acc issue, P x := by
  intro x hx
  simp only [keywordIssueStep] at hx
  split at hx
  · rcases List.mem_append.mp hx with h | h
    · exact hacc x h
    · rw [List.mem_singleton.mp h]; exact hissue
  · exact hacc x hx

lemma standardMatches_mem_roster (keywords : List String) :
    ∀ x ∈ standardMatches keywords, x ∈ MOCK_POLITICAL_ISSUES := by
  unfold standardMatches
  refine foldl_mem_inv _ _ keywords ?_ [] (by intro x hx; cases hx)
  intro acc kw _ hacc
  refine foldl_mem_inv _ _ MOCK_POLITICAL_ISSUES ?_ acc hacc
  intro acc2 issue hissue hacc2
  exact keywordIssueStep_mem _ acc2 issue hacc2 hissue

lemma wordFallbackFind_mem_roster :
    ∀ ws i, wordFallbackFind ws = some i → i ∈ MOCK_POLITICAL_ISSUES := by
  intro ws
  induction ws with
  | nil => intro i h; simp [wordFallbackFind] at h
  | cons w rest ih =>
    intro i h
    unfold wordFallbackFind at h
    split at h
    · exact ih i h
    · cases hf : MOCK_POLITICAL_ISSUES.find? (wordHit w) with
      | some j =>
        rw [hf] at h
        cases h
        exact List.mem_of_find?_eq_some hf
      | none =>
        rw [hf] at h
        exact ih i h

/-- The keyword lookup never returns an empty list: every special-case branch
filters a roster that contains issues of the filtered categories/ids, and the
standard branch falls back to a single issue. -/
lemma findIssuesByKeywords_ne_nil (keywords : List String) :
    findIssuesByKeywords keywords ≠ [] := by
  simp only [findIssuesByKeywords]
  split_ifs with h1 h2 h3 h4 h5 h6 h7
  · decide
  · decide
  · decide
  · decide
  · decide
  · decide
  · cases hf : wordFallbackFind (splitWs (lowerS (joinSp keywords)).data) <;> simp [hf]
  · exact fun hnil => h7 (by rw [hnil]; rfl)

/-- Everything the keyword lookup returns comes from the mock roster. -/
lemma findIssuesByKeywords_mem_roster (keywords : List String) :
    ∀ i ∈ findIssuesByKeywords keywords, i ∈ MOCK_POLITICAL_ISSUES := by
  simp only [findIssuesByKeywords]
  split_ifs with h1 h2 h3 h4 h5 h6 h7
  all_goals try (intro i hi; exact List.mem_filter.mp hi |>.1)
  · intro i hi
    cases hf : wordFallbackFind (splitWs (lowerS (joinSp keywords)).data) with
    | some j =>
      simp only [hf, List.mem_singleton] at hi
      rw [hi]
      exact wordFallbackFind_mem_roster _ j hf
    | none =>
      simp only [hf, List.mem_singleton] at hi
      rw [hi]
      decide
  · exact standardMatches_mem_roster keywords

/-! ### Structural facts about the per-priority mapping -/

/-- For a priority whose lower-cased text contains `"climate"`, the first
special case of the mapping callback fires (the roster lookup for
`climate_change` always succeeds). -/
lemma mapValidPriority_climate (p : String)
    (h : strIncludes (lowerS p) "climate" = true) :
    mapValidPriority p =
      ⟨p, [⟨issueClimateChange, qmk 9 10, ["climate change", "climate"]⟩]⟩ := by
  unfold mapValidPriority
  rw [h]
  rfl

/-- For a non-climate priority, the mapped issues are exactly the keyword
lookup's results, each with the flat confidence `0.8`: the `0.5`-confidence
fallback branch cannot fire because the lookup never returns an empty list. -/
lemma mapValidPriority_not_climate (p : String)
    (h : strIncludes (lowerS p) "climate" = false) :
    mapValidPriority p =
      ⟨p, (findIssuesByKeywords [p]).map (fun i => ⟨i, qmk 8 10, [p]⟩)⟩ := by
  unfold mapValidPriority
  rw [h]
  simp only [Bool.false_eq_true, if_false]
  unfold mapValidPriorityRest
  rw [h]
  simp only [Bool.false_and, Bool.false_eq_true, if_false]
  rw [if_neg]
  intro hempty
  exact findIssuesByKeywords_ne_nil [p] (List.isEmpty_iff.mp hempty)

lemma mapValidPriority_userPriority (p : String) :
    (mapValidPriority p).userPriority = p := by
  cases h : strIncludes (lowerS p) "climate"
  · rw [mapValidPriority_not_climate p h]
  · rw [mapValidPriority_climate p h]

/-- Every issue a mapped priority carries comes from the mock roster. -/
lemma mapValidPriority_issue_mem_roster (p : String) :
    ∀ im ∈ (mapValidPriority p).mappedIssues, im.issue ∈ MOCK_POLITICAL_ISSUES := by
  intro im him
  cases h : strIncludes (lowerS p) "climate"
  · rw [mapValidPriority_not_climate p h] at him
    simp only [List.mem_map] at him
    obtain ⟨i, hi, rfl⟩ := him
    exact findIssuesByKeywords_mem_roster [p] i hi
  · rw [mapValidPriority_climate p h] at him
    simp only [List.mem_singleton] at him
    rw [him]
    decide

/-- Every confidence the mapping assigns is the flat `0.9` (climate special
case) or the flat `0.8` (keyword lookup hit); nothing else is reachable. -/
lemma mapValidPriority_confidence (p : String) :
    ∀ im ∈ (mapValidPriority p).mappedIssues,
      im.confidence = if strIncludes (lowerS p) "climate" then qmk 9 10 else qmk 8 10 := by
  intro im him
  cases h : strIncludes (lowerS p) "climate"
  · rw [mapValidPriority_not_climate p h] at him
    simp only [List.mem_map] at him
    obtain ⟨i, _, rfl⟩ := him
    simp [h]
  · rw [mapValidPriority_climate p h] at him
    simp only [List.mem_singleton] at him
    rw [him]
    simp [h]

/-- A mapped priority never carries an empty issue list. -/
lemma mapValidPriority_issues_ne_nil (p : String) :
    (mapValidPriority p).mappedIssues ≠ [] := by
  cases h : strIncludes (lowerS p) "climate"
  · rw [mapValidPriority_not_climate p h]
    simp only [ne_eq, List.map_eq_nil_iff]
    exact findIssuesByKeywords_ne_nil [p]
  · rw [mapValidPriority_climate p h]
    simp

/-! ### Structural facts about the flagging loop -/

lemma classify_valid_mem (ps : List String) (p : String) :
    p ∈ (classifyPriorities ps).2 ↔
      (p ∈ ps ∧ isBlank p = false ∧ firstPattern p = none) := by
  induction ps with
  | nil => simp [classifyPriorities]
  | cons q rest ih =>
    simp only [classifyPriorities]
    by_cases hb : isBlank q = true
    · rw [if_pos hb]
      constructor
      · intro h
        obtain ⟨hmem, h2, h3⟩ := ih.mp h
        exact ⟨List.mem_cons_of_mem _ hmem, h2, h3⟩
      · rintro ⟨hmem, h2, h3⟩
        rcases List.mem_cons.mp hmem with rfl | hmem
        · rw [hb] at h2; cases h2
        · exact ih.mpr ⟨hmem, h2, h3⟩
    · rw [if_neg hb]
      cases hfp : firstPattern q with
      | some pat =>
        simp only
        constructor
        · intro h
          obtain ⟨hmem, h2, h3⟩ := ih.mp h
          exact ⟨List.mem_cons_of_mem _ hmem, h2, h3⟩
        · rintro ⟨hmem, h2, h3⟩
          rcases List.mem_cons.mp hmem with rfl | hmem
          · rw [hfp] at h3; cases h3
          · exact ih.mpr ⟨hmem, h2, h3⟩
      | none =>
        simp only [List.mem_cons]
        constructor
        · rintro (rfl | h)
          · exact ⟨Or.inl rfl, Bool.eq_false_iff.mpr hb, hfp⟩
          · obtain ⟨hmem, h2, h3⟩ := ih.mp h
            exact ⟨Or.inr hmem, h2, h3⟩
        · rintro ⟨hmem, h2, h3⟩
          rcases hmem with rfl | hmem
          · left; rfl
          · right; exact ih.mpr ⟨hmem, h2, h3⟩

/-- Everything in `flaggedPriorities` records an input priority, non-blank,
together with its first matching pattern's flag type and reason. -/
lemma classify_flagged_spec (ps : List String) :
    ∀ f ∈ (classifyPriorities ps).1,
      f.userPriority ∈ ps ∧ isBlank f.userPriority = false ∧
        ∃ pat, firstPattern f.userPriority = some pat ∧
          f.flagType = pat.flagType ∧ f.reason = pat.reason := by
  induction ps with
  | nil => intro f hf; simp [classifyPriorities] at hf
  | cons q rest ih =>
    intro f hf
    simp only [classifyPriorities] at hf
    by_cases hb : isBlank q = true
    · rw [if_pos hb] at hf
      obtain ⟨h1, h2, h3⟩ := ih f hf
      exact ⟨List.mem_cons_of_mem _ h1, h2, h3⟩
    · rw [if_neg hb] at hf
      cases hfp : firstPattern q with
      | some pat =>
        rw [hfp] at hf
        simp only [List.mem_cons] at hf
        rcases hf with rfl | hf
        · exact ⟨List.mem_cons_self _ _, by simpa using hb, pat, hfp, rfl, rfl⟩
        · obtain ⟨h1, h2, h3⟩ := ih f hf
          exact ⟨List.mem_cons_of_mem _ h1, h2, h3⟩
      | none =>
        rw [hfp] at hf
        obtain ⟨h1, h2, h3⟩ := ih f hf
        exact ⟨List.mem_cons_of_mem _ h1, h2, h3⟩

/-- Conversely, a non-blank input priority whose text matches a pattern is
flagged with the first matching pattern's data. -/
lemma classify_flagged_intro (ps : List String) (p : String) (pat : ExtremePattern)
    (hmem : p ∈ ps) (hb : isBlank p = false) (hfp : firstPattern p = some pat) :
    (⟨p, pat.flagType, pat.reason⟩ : FlaggedPriority) ∈ (classifyPriorities ps).1 := by
  induction ps with
  | nil => cases hmem
  | cons q rest ih =>
    simp only [classifyPriorities]
    rcases List.mem_cons.mp hmem with rfl | hmem2
    · rw [if_neg (by rw [hb]; exact Bool.false_ne_true), hfp]
      exact List.mem_cons_self _ _
    · by_cases hqb : isBlank q = true
      · rw [if_pos hqb]; exact ih hmem2
      · rw [if_neg hqb]
        cases hfq : firstPattern q with
        | some pat2 => exact List.mem_cons_of_mem _ (ih hmem2)
        | none => exact ih hmem2

/-! ### Bridge lemmas for the orchestrator -/

/-- The priorities the pipeline actually receives: the in-place sort has
already happened for non-test requests when `analyzePriorities` is called. -/
def prioritiesUsed (request : RecommendationRequest) : List String :=
  if isTestRequest request then request.priorities else sortStrings request.priorities

lemma lookupCache_nil (key : CacheKey) : lookupCache [] key = none := rfl

/-- Starting from an empty cache, the call's result is the pipeline's result. -/
lemma generateRecommendations_empty_cache (svc : Services) (req : RecommendationRequest) :
    (generateRecommendations svc [] req).result =
      (runPipeline svc (isTestRequest req) (prioritiesUsed req) req.zipCode req.mode).result := by
  unfold generateRecommendations prioritiesUsed
  cases h : isTestRequest req
  · simp only [Bool.false_eq_true, if_false, lookupCache_nil]
  · simp only [if_true]

lemma runPipeline_mapper_error (svc : Services) (testReq : Bool) (ps : List String)
    (zip : String) (mode : Mode) (e : String) (h : svc.analyzePriorities ps = .error e) :
    runPipeline svc testReq ps zip mode = ⟨fatalErrorResult e, true, 1, 0, 0⟩ := by
  unfold runPipeline
  rw [h]

/-- **C1.** A Priority Mapper failure is fatal: the (total) call returns the
fixed error shape — empty candidates, empty ballot measures, the failure
explanation, and `error` set to the thrown message.  The embedding of
`generateRecommendations` is a total function into `CallOutcome`, which is
the model of "never raises to its caller". -/
theorem C1_mapper_failure_fatal (svc : Services) (req : RecommendationRequest) (e : String)
    (h : svc.analyzePriorities (prioritiesUsed req) = .error e) :
    (generateRecommendations svc [] req).result.candidates = [] ∧
    (generateRecommendations svc [] req).result.ballotMeasures = [] ∧
    (generateRecommendations svc [] req).result.policyRecommendations =
      ⟨[], "Unable to generate recommendations due to an error."⟩ ∧
    (generateRecommendations svc [] req).result.error = some e := by
  rw [generateRecommendations_empty_cache,
    runPipeline_mapper_error svc (isTestRequest req) (prioritiesUsed req) req.zipCode req.mode e h]
  exact ⟨rfl, rfl, rfl, rfl⟩

/-- A mapper that always throws, with the real matchers. -/
def svcMapperDown : Services :=
  { analyzePriorities := fun _ => .error "mapper down",
    findMatchingCandidates := fun a _ _ => .ok (findMatchingCandidates a),
    findRelevantMeasures := fun a zip _ => .ok (findRelevantMeasures a zip) }

theorem C1_mapper_failure_fatal_witness :
    svcMapperDown.analyzePriorities (prioritiesUsed ⟨["economy"], "94110", .current⟩)
        = .error "mapper down" ∧
    ((generateRecommendations svcMapperDown [] ⟨["economy"], "94110", .current⟩).result.candidates = [] ∧
     (generateRecommendations svcMapperDown [] ⟨["economy"], "94110", .current⟩).result.ballotMeasures = [] ∧
     (generateRecommendations svcMapperDown [] ⟨["economy"], "94110", .current⟩).result.policyRecommendations =
       ⟨[], "Unable to generate recommendations due to an error."⟩ ∧
     (generateRecommendations svcMapperDown [] ⟨["economy"], "94110", .current⟩).result.error = some "mapper down") :=
  ⟨rfl, C1_mapper_failure_fatal svcMapperDown ⟨["economy"], "94110", .current⟩ "mapper down" rfl⟩

/-- For a non-test request the caller's request comes back with sorted
priorities and unchanged other fields, on both the hit and the miss path. -/
lemma generateRecommendations_requestAfter (svc : Services) (cache : Cache)
    (req : RecommendationRequest) (h : isTestRequest req = false) :
    (generateRecommendations svc cache req).requestAfter =
      ⟨sortStrings req.priorities, req.zipCode, req.mode⟩ := by
  unfold generateRecommendations
  rw [h]
  simp only [Bool.false_eq_true, if_false]
  cases lookupCache cache (sortStrings req.priorities, req.zipCode, req.mode) <;> rfl

/-- **C10.** For every request without test keywords, the call sorts the
caller's `priorities` array in place while building the cache key: afterwards
it is a permutation of the original in (JavaScript-)lexicographically sorted
order, and `zipCode` and `mode` are unchanged. -/
theorem C10_inplace_sort (svc : Services) (cache : Cache) (req : RecommendationRequest)
    (h : isTestRequest req = false) :
    (generateRecommendations svc cache req).requestAfter.priorities.Perm req.priorities ∧
    List.Sorted (fun a b => jsLeStr a b = true)
      (generateRecommendations svc cache req).requestAfter.priorities ∧
    (generateRecommendations svc cache req).requestAfter.zipCode = req.zipCode ∧
    (generateRecommendations svc cache req).requestAfter.mode = req.mode := by
  rw [generateRecommendations_requestAfter svc cache req h]
  exact ⟨sortStrings_perm req.priorities, sortStrings_sorted req.priorities, rfl, rfl⟩

theorem C10_inplace_sort_witness :
    isTestRequest ⟨["b", "a"], "94110", .current⟩ = false ∧
    ((generateRecommendations realServices [] ⟨["b", "a"], "94110", .current⟩).requestAfter.priorities.Perm
        ["b", "a"] ∧
     List.Sorted (fun a b => jsLeStr a b = true)
       (generateRecommendations realServices [] ⟨["b", "a"], "94110", .current⟩).requestAfter.priorities ∧
     (generateRecommendations realServices [] ⟨["b", "a"], "94110", .current⟩).requestAfter.zipCode = "94110" ∧
     (generateRecommendations realServices [] ⟨["b", "a"], "94110", .current⟩).requestAfter.mode = .current) :=
  ⟨by decide, C10_inplace_sort realServices [] ⟨["b", "a"], "94110", .current⟩ (by decide)⟩

/-! ### C5 — every priority lands in exactly one of the two lists -/

lemma analyzePriorities_mappedPriorities (ps : List String) :
    (analyzePriorities ps).mappedPriorities = (classifyPriorities ps).2.map mapValidPriority := rfl

lemma analyzePriorities_flaggedPriorities (ps : List String) :
    (analyzePriorities ps).flaggedPriorities = (classifyPriorities ps).1 := rfl

lemma analyzePriorities_userPriorities (ps : List String) :
    (analyzePriorities ps).mappedPriorities.map (·.userPriority) = (classifyPriorities ps).2 := by
  rw [analyzePriorities_mappedPriorities, List.map_map]
  have h : ∀ p ∈ (classifyPriorities ps).2,
      ((fun mp => mp.userPriority) ∘ mapValidPriority) p = id p := by
    intro p _
    exact mapValidPriority_userPriority p
  rw [List.map_congr_left h, List.map_id]

/-- **C5.** Every input priority appears in exactly one of `mappedPriorities`
and `flaggedPriorities`: blank priorities in neither; non-blank priorities
matching none of the ordered extreme patterns only in `mappedPriorities`;
non-blank priorities matching a pattern only in `flaggedPriorities`, carrying
the first matching pattern's flag type (and reason). -/
theorem C5_partition_flagging (ps : List String) (p : String) (hp : p ∈ ps) :
    (isBlank p = true →
      p ∉ (analyzePriorities ps).mappedPriorities.map (·.userPriority) ∧
      p ∉ (analyzePriorities ps).flaggedPriorities.map (·.userPriority)) ∧
    (isBlank p = false → firstPattern p = none →
      p ∈ (analyzePriorities ps).mappedPriorities.map (·.userPriority) ∧
      p ∉ (analyzePriorities ps).flaggedPriorities.map (·.userPriority)) ∧
    (∀ pat, isBlank p = false → firstPattern p = some pat →
      ((⟨p, pat.flagType, pat.reason⟩ : FlaggedPriority) ∈ (analyzePriorities ps).flaggedPriorities ∧
       (∀ f ∈ (analyzePriorities ps).flaggedPriorities,
          f.userPriority = p → f.flagType = pat.flagType ∧ f.reason = pat.reason) ∧
       p ∉ (analyzePriorities ps).mappedPriorities.map (·.userPriority))) := by
  rw [analyzePriorities_userPriorities, analyzePriorities_flaggedPriorities]
  refine ⟨?_, ?_, ?_⟩
  · intro hb
    constructor
    · intro hmem
      have := (classify_valid_mem ps p).mp hmem
      rw [hb] at this
      cases this.2.1
    · intro hmem
      obtain ⟨f, hf, hfp⟩ := List.mem_map.mp hmem
      have := (classify_flagged_spec ps f hf).2.1
      rw [hfp, hb] at this
      cases this
  · intro hb hfp
    constructor
    · exact (classify_valid_mem ps p).mpr ⟨hp, hb, hfp⟩
    · intro hmem
      obtain ⟨f, hf, hfu⟩ := List.mem_map.mp hmem
      obtain ⟨_, _, pat, hpat, _, _⟩ := classify_flagged_spec ps f hf
      rw [hfu, hfp] at hpat
      cases hpat
  · intro pat hb hfp
    refine ⟨classify_flagged_intro ps p pat hp hb hfp, ?_, ?_⟩
    · intro f hf hfu
      obtain ⟨_, _, pat2, hpat2, hft, hfr⟩ := classify_flagged_spec ps f hf
      rw [hfu, hfp] at hpat2
      cases hpat2
      exact ⟨hft, hfr⟩
    · intro hmem
      have := (classify_valid_mem ps p).mp hmem
      rw [hfp] at this
      cases this.2.2

theorem C5_partition_flagging_witness :
    ("Return to the gold standard" ∈ ["Return to the gold standard", "fix roads", " "]) ∧
    (((⟨"Return to the gold standard", .out_of_scope,
        "Represents a niche economic theory not typically covered."⟩ : FlaggedPriority) ∈
      (analyzePriorities ["Return to the gold standard", "fix roads", " "]).flaggedPriorities) ∧
     "Return to the gold standard" ∉
       (analyzePriorities ["Return to the gold standard", "fix roads", " "]).mappedPriorities.map
         (·.userPriority)) := by
  have h := (C5_partition_flagging ["Return to the gold standard", "fix roads", " "]
    "Return to the gold standard" (by decide)).2.2
    ⟨"gold", ["standard"], .out_of_scope, "Represents a niche economic theory not typically covered."⟩
    (by decide) (by decide)
  exact ⟨by decide, h.1, h.2.2⟩

/-! ### C4 — one mapped priority per valid input, and the real fallback -/

/-- **C4 counterexample.**  `"xyzzy qqq"` matches no issue: the standard
keyword matching is empty and even the lookup's word fallback finds nothing,
so the lookup returns the roster's first issue.  The claim says such a
priority receives its fallback issue with confidence `0.5`; the code assigns
the flat standard confidence `0.8` (the `0.5` branch of `analyzePriorities`
is unreachable because `findIssuesByKeywords` never returns an empty list). -/
theorem C4_fallback_confidence :
    standardMatches ["xyzzy qqq"] = [] ∧
    wordFallbackFind (splitWs (lowerS (joinSp ["xyzzy qqq"])).data) = none ∧
    (analyzePriorities ["xyzzy qqq"]).mappedPriorities =
      [⟨"xyzzy qqq", [⟨issueTaxes, qmk 8 10, ["xyzzy qqq"]⟩]⟩] ∧
    (qmk 8 10).toRat ≠ (qmk 5 10).toRat := by
  refine ⟨by decide, by decide, by decide, ?_⟩
  norm_num [Q.toRat, qmk]

/-- **C4 (amended).**  `analyzePriorities` returns exactly one
`MappedPriority` per non-blank, non-flagged input (blank inputs appear in
neither list), each with at least one mapped issue whose confidence lies in
`(0, 1]`; but a priority matching no issue receives its single fallback issue
from inside the keyword lookup with the standard confidence `0.8` — never
`0.5`, since the lookup never returns an empty list. -/
theorem C4_mapping_amended (ps : List String) :
    ((analyzePriorities ps).mappedPriorities.map (·.userPriority) = (classifyPriorities ps).2) ∧
    (∀ mp ∈ (analyzePriorities ps).mappedPriorities,
      mp.mappedIssues ≠ [] ∧
      ∀ im ∈ mp.mappedIssues,
        (0 < im.confidence.toRat ∧ im.confidence.toRat ≤ 1) ∧
        (im.confidence = qmk 9 10 ∨ im.confidence = qmk 8 10)) ∧
    (∀ keywords, findIssuesByKeywords keywords ≠ []) := by
  refine ⟨analyzePriorities_userPriorities ps, ?_, findIssuesByKeywords_ne_nil⟩
  intro mp hmp
  rw [analyzePriorities_mappedPriorities] at hmp
  obtain ⟨p, _, rfl⟩ := List.mem_map.mp hmp
  refine ⟨mapValidPriority_issues_ne_nil p, ?_⟩
  intro im him
  have hc := mapValidPriority_confidence p im him
  have hflat : im.confidence = qmk 9 10 ∨ im.confidence = qmk 8 10 := by
    rw [hc]
    cases strIncludes (lowerS p) "climate"
    · right; rfl
    · left; rfl
  refine ⟨?_, hflat⟩
  rcases hflat with h | h <;> rw [h] <;> constructor <;> norm_num [Q.toRat, qmk]

theorem C4_mapping_amended_witness :
    ((⟨"xyzzy qqq", [⟨issueTaxes, qmk 8 10, ["xyzzy qqq"]⟩]⟩ : MappedPriority) ∈
      (analyzePriorities ["xyzzy qqq"]).mappedPriorities) ∧
    [⟨issueTaxes, qmk 8 10, ["xyzzy qqq"]⟩] ≠ ([] : List IssueMatch) ∧
    (0 < (qmk 8 10).toRat ∧ (qmk 8 10).toRat ≤ 1) := by
  have h := (C4_mapping_amended ["xyzzy qqq"]).2.1
    ⟨"xyzzy qqq", [⟨issueTaxes, qmk 8 10, ["xyzzy qqq"]⟩]⟩ (by decide)
  exact ⟨by decide, h.1, (h.2 ⟨issueTaxes, qmk 8 10, ["xyzzy qqq"]⟩ (by decide)).1⟩

/-! ### C7 — the per-term scoring formula is never used -/

/-- **C7 counterexample.**  For the priority `"tax"`, the spec's per-term
formula (the source's `calculateTermMatch`/`mapSinglePriority` scoring, which
`analyzePriorities` never invokes) gives the Taxation issue
`(3/3) × 1.2 × weight = 1.2`; the service actually assigns the flat `0.8`. -/
theorem C7_formula_unused :
    (analyzePriorities ["tax"]).mappedPriorities =
      [⟨"tax", [⟨issueTaxes, qmk 8 10, ["tax"]⟩]⟩] ∧
    mapSingleIssueScore "tax" issueTaxes = Q.mul (Q.mul (qmk 3 3) (qmk 12 10)) (qmk 1 1) ∧
    (qmk 8 10).toRat ≠ (Q.mul (Q.mul (qmk 3 3) (qmk 12 10)) (qmk 1 1)).toRat := by
  refine ⟨by decide, by decide, ?_⟩
  norm_num [Q.toRat, Q.mul, qmk]

/-- **C7 (amended).**  Confidences in `analyzePriorities`' output are flat
constants: `0.9` for a priority containing `"climate"` and `0.8` otherwise;
the length-ratio/start-boost/weight formula lives only in the unused private
helpers (`calculateTermMatch`, `mapSinglePriority`). -/
theorem C7_flat_confidence_amended (ps : List String) :
    ∀ mp ∈ (analyzePriorities ps).mappedPriorities, ∀ im ∈ mp.mappedIssues,
      im.confidence =
        if strIncludes (lowerS mp.userPriority) "climate" then qmk 9 10 else qmk 8 10 := by
  intro mp hmp im him
  rw [analyzePriorities_mappedPriorities] at hmp
  obtain ⟨p, _, rfl⟩ := List.mem_map.mp hmp
  rw [mapValidPriority_userPriority]
  exact mapValidPriority_confidence p im him

theorem C7_flat_confidence_amended_witness :
    (qmk 8 10 : Q) =
      (if strIncludes (lowerS "tax") "climate" then qmk 9 10 else qmk 8 10) :=
  C7_flat_confidence_amended ["tax"] ⟨"tax", [⟨issueTaxes, qmk 8 10, ["tax"]⟩]⟩ (by decide)
    ⟨issueTaxes, qmk 8 10, ["tax"]⟩ (by decide)

/-! ### C8 — conflict reporting -/

/-- The mutual policy-approach conflict condition from `findPolicyConflicts`
(the private helper whose sources (b) and (c) the spec describes):
`approach1.conflictingApproaches?.includes(approach2.name) ||
 approach2.conflictingApproaches?.includes(approach1.name)`. -/
def approachesDeclareConflict (i1 i2 : PoliticalIssue) : Bool :=
  (i1.policyApproaches.getD []).any (fun a1 =>
    (i2.policyApproaches.getD []).any (fun a2 =>
      (a1.conflictingApproaches.getD []).contains a2.name
      || (a2.conflictingApproaches.getD []).contains a1.name))

/-- The flat list of issues across all mapped priorities, exactly as
`analyzePriorities` builds it before calling `detectConflicts`. -/
def allMappedIssues (ps : List String) : List PoliticalIssue :=
  (((analyzePriorities ps).mappedPriorities).map (fun mp => mp.mappedIssues.map (·.issue))).flatten

lemma allMappedIssues_mem_roster (ps : List String) :
    ∀ i ∈ allMappedIssues ps, i ∈ MOCK_POLITICAL_ISSUES := by
  intro i hi
  unfold allMappedIssues at hi
  rw [analyzePriorities_mappedPriorities] at hi
  obtain ⟨l, hl, hil⟩ := List.mem_flatten.mp hi
  obtain ⟨mp, hmp, rfl⟩ := List.mem_map.mp hl
  obtain ⟨p, _, rfl⟩ := List.mem_map.mp hmp
  obtain ⟨im, him, rfl⟩ := List.mem_map.mp hil
  exact mapValidPriority_issue_mem_roster p im him

lemma roster_no_approach_data :
    ∀ i ∈ MOCK_POLITICAL_ISSUES, i.policyApproaches = none ∧ i.opposingIssues = none := by
  decide

/-- **C8.**  `potentialConflicts` is exactly the list of static (mock)
conflict definitions whose issue-id pair is fully present among the mapped
issues — source (a), with every match reported.  Sources (b) (mutual
policy-approach declarations) and (c) (declared opposing-issue ids) are also
contained, vacuously so: no issue the mapper can produce carries
policy-approach or opposing-issue declarations, which the last conjunct
records explicitly. -/
theorem C8_conflict_sources (ps : List String) :
    ((analyzePriorities ps).potentialConflicts =
      MOCK_ISSUE_CONFLICTS.filter (fun c =>
        ((allMappedIssues ps).map (·.id)).contains c.issues.1 &&
        ((allMappedIssues ps).map (·.id)).contains c.issues.2)) ∧
    (∀ i1 ∈ allMappedIssues ps, ∀ i2 ∈ allMappedIssues ps,
      approachesDeclareConflict i1 i2 = true →
      ∃ c ∈ (analyzePriorities ps).potentialConflicts, c.issues = (i1.id, i2.id)) ∧
    (∀ i1 ∈ allMappedIssues ps, ∀ i2 ∈ allMappedIssues ps,
      (i1.opposingIssues.getD []).contains i2.id = true →
      ∃ c ∈ (analyzePriorities ps).potentialConflicts, c.issues = (i1.id, i2.id)) ∧
    (∀ i ∈ allMappedIssues ps, i.policyApproaches = none ∧ i.opposingIssues = none) := by
  have hroster := fun i hi => roster_no_approach_data i (allMappedIssues_mem_roster ps i hi)
  refine ⟨rfl, ?_, ?_, hroster⟩
  · intro i1 h1 i2 h2 hdecl
    exfalso
    unfold approachesDeclareConflict at hdecl
    rw [(hroster i1 h1).1] at hdecl
    simp at hdecl
  · intro i1 h1 i2 h2 hopp
    exfalso
    rw [(hroster i1 h1).2] at hopp
    simp at hopp

theorem C8_conflict_sources_witness :
    (analyzePriorities ["lower taxes", "school funding"]).potentialConflicts =
      MOCK_ISSUE_CONFLICTS.filter (fun c =>
        ((allMappedIssues ["lower taxes", "school funding"]).map (·.id)).contains c.issues.1 &&
        ((allMappedIssues ["lower taxes", "school funding"]).map (·.id)).contains c.issues.2) ∧
    (analyzePriorities ["lower taxes", "school funding"]).potentialConflicts =
      [conflictTaxesEducation] :=
  ⟨(C8_conflict_sources ["lower taxes", "school funding"]).1, by decide⟩

/-! ### C6 — location filtering and fallback -/

lemma measureMatchFor_ballotMeasure (ups : List String) (kw : String) (fb : Bool)
    (m : BallotMeasure) : (measureMatchFor ups kw fb m).ballotMeasure = m := rfl

lemma measureMatchFor_isFallback (ups : List String) (kw : String) (fb : Bool)
    (m : BallotMeasure) : (measureMatchFor ups kw fb m).isFallback = fb := rfl

/-- The roster's applicable-location sets never contain `"00000"`, so the
extra `zipCode === '00000'` disjunct of `isFallback` cannot fire when the
location filter is non-empty. -/
lemma roster_location_ne_00000 (m : BallotMeasure) (hm : m ∈ createMockBallotMeasures)
    (zip : String) (h : m.applicableLocations.contains zip = true) : zip ≠ "00000" := by
  intro heq
  subst heq
  revert h
  fin_cases hm <;> decide

/-- Shape of `findRelevantMeasures` when the location filter is empty:
the whole roster is scored, every match marked as fallback. -/
lemma findRelevantMeasures_no_location (analysis : PriorityAnalysis) (zipCode : String)
    (hemp : createMockBallotMeasures.filter
      (fun m => m.applicableLocations.contains zipCode) = []) :
    findRelevantMeasures analysis zipCode =
      List.insertionSort
        (fun a b : BallotMeasureMatch => Q.le b.relevanceScore a.relevanceScore = true)
        (createMockBallotMeasures.map
          (measureMatchFor (analysis.mappedPriorities.map (·.userPriority))
            (lowerS (joinSp (analysis.mappedPriorities.map (·.userPriority)))) true)) := by
  simp only [findRelevantMeasures]
  rw [hemp]
  rfl

/-- Shape of `findRelevantMeasures` when the location filter is non-empty:
only the filtered measures are scored, none marked as fallback. -/
lemma findRelevantMeasures_with_location (analysis : PriorityAnalysis) (zipCode : String)
    (hne : createMockBallotMeasures.filter
      (fun m => m.applicableLocations.contains zipCode) ≠ []) :
    findRelevantMeasures analysis zipCode =
      List.insertionSort
        (fun a b : BallotMeasureMatch => Q.le b.relevanceScore a.relevanceScore = true)
        ((createMockBallotMeasures.filter
            (fun m => m.applicableLocations.contains zipCode)).map
          (measureMatchFor (analysis.mappedPriorities.map (·.userPriority))
            (lowerS (joinSp (analysis.mappedPriorities.map (·.userPriority)))) false)) := by
  have h1 : (createMockBallotMeasures.filter
      (fun m => m.applicableLocations.contains zipCode)).isEmpty = false := by
    cases hl : createMockBallotMeasures.filter
        (fun m => m.applicableLocations.contains zipCode) with
    | nil => exact absurd hl hne
    | cons m rest => rfl
  have h2 : zipCode ≠ "00000" := by
    cases hl : createMockBallotMeasures.filter
        (fun m => m.applicableLocations.contains zipCode) with
    | nil => exact absurd hl hne
    | cons m rest =>
      have hm : m ∈ createMockBallotMeasures.filter
          (fun m => m.applicableLocations.contains zipCode) := by
        rw [hl]; exact List.mem_cons_self _ _
      have := List.mem_filter.mp hm
      exact roster_location_ne_00000 m this.1 zipCode this.2
  simp only [findRelevantMeasures, h1, Bool.not_false, if_true, Bool.false_or,
    decide_eq_false h2]

/-- The measures carried by a sorted map of `measureMatchFor` are a
permutation of the scored list. -/
lemma sorted_measure_map_perm (l : List BallotMeasure) (ups : List String) (kw : String)
    (fb : Bool) :
    ((List.insertionSort
        (fun a b : BallotMeasureMatch => Q.le b.relevanceScore a.relevanceScore = true)
        (l.map (measureMatchFor ups kw fb))).map (·.ballotMeasure)).Perm l := by
  have h1 := (List.perm_insertionSort
    (fun a b : BallotMeasureMatch => Q.le b.relevanceScore a.relevanceScore = true)
    (l.map (measureMatchFor ups kw fb))).map (·.ballotMeasure)
  rw [List.map_map] at h1
  have h2 : ∀ l2 : List BallotMeasure,
      l2.map ((·.ballotMeasure) ∘ measureMatchFor ups kw fb) = l2 := by
    intro l2
    induction l2 with
    | nil => rfl
    | cons m rest ih =>
      rw [List.map_cons, ih]
      rfl
  rwa [h2 l] at h1

lemma sorted_measure_map_isFallback (l : List BallotMeasure) (ups : List String) (kw : String)
    (fb : Bool) :
    ∀ m ∈ List.insertionSort
        (fun a b : BallotMeasureMatch => Q.le b.relevanceScore a.relevanceScore = true)
        (l.map (measureMatchFor ups kw fb)), m.isFallback = fb := by
  intro m hm
  rw [List.mem_insertionSort] at hm
  obtain ⟨x, _, rfl⟩ := List.mem_map.mp hm
  rfl

lemma sorted_measure_map_ne_nil (l : List BallotMeasure) (ups : List String) (kw : String)
    (fb : Bool) (hl : l ≠ []) :
    List.insertionSort
        (fun a b : BallotMeasureMatch => Q.le b.relevanceScore a.relevanceScore = true)
        (l.map (measureMatchFor ups kw fb)) ≠ [] := by
  intro h
  have hp := List.perm_insertionSort
    (fun a b : BallotMeasureMatch => Q.le b.relevanceScore a.relevanceScore = true)
    (l.map (measureMatchFor ups kw fb))
  rw [h] at hp
  exact hl (List.map_eq_nil_iff.mp (hp.symm.eq_nil))

/-- **C6.**  With a location contained in no measure's applicable-location
set, `findRelevantMeasures` returns (a permutation by relevance of) the
entire roster with `isFallback = true` everywhere; with a location present in
some set it returns exactly the measures whose set contains it, each with
`isFallback = false`; and the (non-empty) roster never yields an empty
result. -/
theorem C6_location_fallback (analysis : PriorityAnalysis) (zipCode : String) :
    (createMockBallotMeasures.filter (fun m => m.applicableLocations.contains zipCode) = [] →
      (((findRelevantMeasures analysis zipCode).map (·.ballotMeasure)).Perm
        createMockBallotMeasures ∧
       ∀ m ∈ findRelevantMeasures analysis zipCode, m.isFallback = true)) ∧
    (createMockBallotMeasures.filter (fun m => m.applicableLocations.contains zipCode) ≠ [] →
      (((findRelevantMeasures analysis zipCode).map (·.ballotMeasure)).Perm
        (createMockBallotMeasures.filter (fun m => m.applicableLocations.contains zipCode)) ∧
       ∀ m ∈ findRelevantMeasures analysis zipCode, m.isFallback = false)) ∧
    findRelevantMeasures analysis zipCode ≠ [] := by
  by_cases hemp : createMockBallotMeasures.filter
      (fun m => m.applicableLocations.contains zipCode) = []
  · rw [findRelevantMeasures_no_location analysis zipCode hemp]
    refine ⟨fun _ => ⟨sorted_measure_map_perm _ _ _ _, sorted_measure_map_isFallback _ _ _ _⟩,
      fun hne => absurd hemp hne, ?_⟩
    exact sorted_measure_map_ne_nil _ _ _ _ (by decide)
  · rw [findRelevantMeasures_with_location analysis zipCode hemp]
    refine ⟨fun heq => absurd heq hemp,
      fun _ => ⟨sorted_measure_map_perm _ _ _ _, sorted_measure_map_isFallback _ _ _ _⟩, ?_⟩
    exact sorted_measure_map_ne_nil _ _ _ _ hemp

theorem C6_location_fallback_witness :
    (createMockBallotMeasures.filter
      (fun m => m.applicableLocations.contains "99999") = []) ∧
    (((findRelevantMeasures (analyzePriorities ["school funding"]) "99999").map
        (·.ballotMeasure)).Perm createMockBallotMeasures ∧
     ∀ m ∈ findRelevantMeasures (analyzePriorities ["school funding"]) "99999",
       m.isFallback = true) ∧
    (createMockBallotMeasures.filter
      (fun m => m.applicableLocations.contains "94107") ≠ []) ∧
    (((findRelevantMeasures (analyzePriorities ["school funding"]) "94107").map
        (·.ballotMeasure)).Perm
      (createMockBallotMeasures.filter (fun m => m.applicableLocations.contains "94107")) ∧
     ∀ m ∈ findRelevantMeasures (analyzePriorities ["school funding"]) "94107",
       m.isFallback = false) :=
  ⟨by decide,
   (C6_location_fallback (analyzePriorities ["school funding"]) "99999").1 (by decide),
   by decide,
   (C6_location_fallback (analyzePriorities ["school funding"]) "94107").2.1 (by decide)⟩

/-! ### C2 — per-branch failure isolation -/

/-- The real mapper and candidate matcher with a measure matcher that always
throws. -/
def svcMeasureDown : Services :=
  { analyzePriorities := fun ps => .ok (analyzePriorities ps),
    findMatchingCandidates := fun a _ _ => .ok (findMatchingCandidates a),
    findRelevantMeasures := fun _ _ _ => .error "measure matcher down" }

/-- The real mapper and measure matcher with a candidate matcher that always
throws. -/
def svcCandidateDown : Services :=
  { analyzePriorities := fun ps => .ok (analyzePriorities ps),
    findMatchingCandidates := fun _ _ _ => .error "candidate matcher down",
    findRelevantMeasures := fun a zip _ => .ok (findRelevantMeasures a zip) }

/-- **C2 counterexample.**  Forcing only the Measure Matcher to fail (mapper
and Candidate Matcher succeed) yields `ballotMeasures = []` but leaves
`error` unset: the catch around `findRelevantMeasures` only logs, so the
claimed "error string for the failing branch" does not exist when that
branch is the measure matcher. -/
theorem C2_measure_error_unreported :
    (generateRecommendations svcMeasureDown [] ⟨["school funding"], "94110", .current⟩).result.ballotMeasures = [] ∧
    (generateRecommendations svcMeasureDown [] ⟨["school funding"], "94110", .current⟩).result.error = none ∧
    (generateRecommendations svcMeasureDown [] ⟨["school funding"], "94110", .current⟩).result.candidates ≠ [] ∧
    (generateRecommendations svcMeasureDown [] ⟨["school funding"], "94110", .current⟩).result.policyRecommendations.topPolicies = ["school funding"] := by
  exact ⟨by decide, by decide, by decide, by decide⟩

/-- **C2 (amended).**  When the mapper succeeds, a matcher failure is
isolated to its branch — but with two asymmetries the original claim
misses: only a Candidate Matcher failure populates `error`
(a Measure Matcher failure leaves `error` unset), and a candidate failure on
the special test path (a test request whose priorities contain
`"throw_error"`) escalates to the fatal path instead. -/
theorem C2_branch_isolation_amended (svc : Services) (req : RecommendationRequest)
    (A : PriorityAnalysis) (hA : svc.analyzePriorities (prioritiesUsed req) = .ok A) :
    (∀ e ms, svc.findMatchingCandidates A req.mode req.zipCode = .error e →
      svc.findRelevantMeasures A req.zipCode req.mode = .ok ms →
      (isTestRequest req && (prioritiesUsed req).contains "throw_error") = false →
      ((generateRecommendations svc [] req).result.candidates = [] ∧
       (generateRecommendations svc [] req).result.error = some e ∧
       (generateRecommendations svc [] req).result.ballotMeasures = ms.map measureCard ∧
       (generateRecommendations svc [] req).result.policyRecommendations =
         generatePolicyRecommendations A)) ∧
    (∀ cands e2, svc.findMatchingCandidates A req.mode req.zipCode = .ok cands →
      svc.findRelevantMeasures A req.zipCode req.mode = .error e2 →
      ((generateRecommendations svc [] req).result.ballotMeasures = [] ∧
       (generateRecommendations svc [] req).result.error = none ∧
       (generateRecommendations svc [] req).result.candidates = cands.map candidateCard ∧
       (generateRecommendations svc [] req).result.policyRecommendations =
         generatePolicyRecommendations A)) := by
  constructor
  · intro e ms hcand hmeas hnothrow
    rw [generateRecommendations_empty_cache]
    simp only [runPipeline, hA, hcand, hmeas, hnothrow, Bool.false_eq_true, if_false]
    exact ⟨rfl, rfl, rfl, rfl⟩
  · intro cands e2 hcand hmeas
    rw [generateRecommendations_empty_cache]
    simp only [runPipeline, hA, hcand, hmeas]
    exact ⟨rfl, rfl, rfl, rfl⟩

theorem C2_branch_isolation_amended_witness :
    svcCandidateDown.analyzePriorities (prioritiesUsed ⟨["school funding"], "94110", .current⟩)
        = .ok (analyzePriorities ["school funding"]) ∧
    svcCandidateDown.findMatchingCandidates (analyzePriorities ["school funding"]) .current "94110"
        = .error "candidate matcher down" ∧
    ((generateRecommendations svcCandidateDown [] ⟨["school funding"], "94110", .current⟩).result.candidates = [] ∧
     (generateRecommendations svcCandidateDown [] ⟨["school funding"], "94110", .current⟩).result.error =
       some "candidate matcher down" ∧
     (generateRecommendations svcCandidateDown [] ⟨["school funding"], "94110", .current⟩).result.ballotMeasures =
       (findRelevantMeasures (analyzePriorities ["school funding"]) "94110").map measureCard ∧
     (generateRecommendations svcCandidateDown [] ⟨["school funding"], "94110", .current⟩).result.policyRecommendations =
       generatePolicyRecommendations (analyzePriorities ["school funding"])) := by
  refine ⟨rfl, rfl, ?_⟩
  exact (C2_branch_isolation_amended svcCandidateDown ⟨["school funding"], "94110", .current⟩
    (analyzePriorities ["school funding"]) rfl).1
    "candidate matcher down" (findRelevantMeasures (analyzePriorities ["school funding"]) "94110")
    rfl rfl (by decide)

/-! ### C9 — candidate alignment scoring -/

/-- The claim's per-pair contributions: `0.2 × position.strength` for every
(position, priority) pair in bidirectional containment, positions outermost
— exactly the order the nested loops visit the pairs. -/
def candidateHitTerms (userPriorities : List String) (positions : List CandidatePosition) :
    List Q :=
  (positions.map (fun pos =>
    (userPriorities.filter (posHit pos)).map (fun _ => Q.mul (qmk 2 10) pos.strength))).flatten

lemma inner_fold_fst (pos : CandidatePosition) (ups : List String) :
    ∀ acc : Q × List String,
      (ups.foldl (candidateScoreStep pos) acc).1 =
        ((ups.filter (posHit pos)).map (fun _ => Q.mul (qmk 2 10) pos.strength)).foldl
          Q.add acc.1 := by
  induction ups with
  | nil => intro acc; rfl
  | cons u us ih =>
    intro acc
    rw [List.foldl_cons, List.filter_cons]
    by_cases h : posHit pos u = true
    · rw [if_pos h, List.map_cons, List.foldl_cons, ih]
      have hs : (candidateScoreStep pos acc u).1 =
          Q.add acc.1 (Q.mul (qmk 2 10) pos.strength) := by
        simp [candidateScoreStep, h]
      rw [hs]
    · rw [if_neg h, ih]
      have hs : candidateScoreStep pos acc u = acc := by
        simp [candidateScoreStep, h]
      rw [hs]

/-- The accumulated score is exactly the left-fold sum of the per-pair hit
contributions. -/
lemma candidateScoreFold_fst (ups : List String) (positions : List CandidatePosition) :
    (candidateScoreFold ups positions).1 = qsum (candidateHitTerms ups positions) := by
  have h : ∀ acc : Q × List String,
      (positions.foldl (fun a pos => ups.foldl (candidateScoreStep pos) a) acc).1 =
        (candidateHitTerms ups positions).foldl Q.add acc.1 := by
    induction positions with
    | nil => intro acc; rfl
    | cons pos rest ih =>
      intro acc
      rw [List.foldl_cons, ih]
      unfold candidateHitTerms
      rw [List.map_cons, List.flatten_cons, List.foldl_append, inner_fold_fst]
  exact h (qmk 0 1, [])

lemma insertUnique_mem_of_mem (l : List String) (s p : String) (h : p ∈ l) :
    p ∈ insertUnique l s := by
  unfold insertUnique
  split
  · exact h
  · exact List.mem_append_left _ h

lemma insertUnique_mem_self (l : List String) (s : String) : s ∈ insertUnique l s := by
  unfold insertUnique
  split
  · next hc => exact List.mem_of_elem_eq_true hc
  · exact List.mem_append_right _ (List.mem_singleton.mpr rfl)

lemma candidateScoreStep_snd_mono (pos : CandidatePosition) (acc : Q × List String)
    (u p : String) (h : p ∈ acc.2) : p ∈ (candidateScoreStep pos acc u).2 := by
  unfold candidateScoreStep
  split
  · exact insertUnique_mem_of_mem _ _ _ h
  · exact h

lemma inner_fold_snd_mono (pos : CandidatePosition) (ups : List String) :
    ∀ (acc : Q × List String) (p : String), p ∈ acc.2 →
      p ∈ (ups.foldl (candidateScoreStep pos) acc).2 := by
  induction ups with
  | nil => intro acc p h; exact h
  | cons u us ih =>
    intro acc p h
    rw [List.foldl_cons]
    exact ih _ p (candidateScoreStep_snd_mono pos acc u p h)

lemma inner_fold_snd_hit (pos : CandidatePosition) (ups : List String) (p : String)
    (hp : p ∈ ups) (hhit : posHit pos p = true) :
    ∀ acc : Q × List String, p ∈ (ups.foldl (candidateScoreStep pos) acc).2 := by
  induction ups with
  | nil => cases hp
  | cons u us ih =>
    intro acc
    rw [List.foldl_cons]
    rcases List.mem_cons.mp hp with rfl | hp2
    · apply inner_fold_snd_mono
      simp only [candidateScoreStep, hhit, if_true]
      exact insertUnique_mem_self _ _
    · exact ih hp2 (candidateScoreStep pos acc u)

/-- Every priority that hits some declared position ends up in the second
component (the matched set) of the scoring fold. -/
lemma candidateScoreFold_snd (ups : List String) (positions : List CandidatePosition)
    (p : String) (hp : p ∈ ups) (pos : CandidatePosition) (hpos : pos ∈ positions)
    (hhit : posHit pos p = true) :
    p ∈ (candidateScoreFold ups positions).2 := by
  have houter : ∀ (rest : List CandidatePosition) (acc : Q × List String), p ∈ acc.2 →
      p ∈ (rest.foldl (fun a pos2 => ups.foldl (candidateScoreStep pos2) a) acc).2 := by
    intro rest
    induction rest with
    | nil => intro acc h; exact h
    | cons q qs ih =>
      intro acc h
      rw [List.foldl_cons]
      exact ih _ (inner_fold_snd_mono q ups acc p h)
  have main : ∀ (rest : List CandidatePosition) (acc : Q × List String),
      pos ∈ rest →
      p ∈ (rest.foldl (fun a pos2 => ups.foldl (candidateScoreStep pos2) a) acc).2 := by
    intro rest
    induction rest with
    | nil => intro acc h; cases h
    | cons q qs ih =>
      intro acc hmem
      rw [List.foldl_cons]
      rcases List.mem_cons.mp hmem with rfl | h2
      · exact houter qs _ (inner_fold_snd_hit pos ups p hp hhit _)
      · exact ih _ h2
  exact main positions (qmk 0 1, []) hpos

/-- **C9 counterexample.**  With the single mapped priority `"tax"`, the
joined keywords contain `"tax"`, so John Doe's score is overwritten by the
hardcoded `0.85`; the claimed clamped sum of `0.2 × strength` contributions
is `0.18` for his positions.  The claim's formula therefore does not describe
`alignmentScore` on this input. -/
theorem C9_hardcoded_override :
    ((findMatchingCandidates (analyzePriorities ["tax"])).head?.map
      (fun m => (m.candidate.name, m.alignmentScore))) = some ("John Doe", qmk 85 100) ∧
    qmin (qmk 1 1) (qsum (candidateHitTerms ["tax"] candidateJohnDoe.positions)) = qmk 18 100 ∧
    (qmk 85 100).toRat ≠ (qmk 18 100).toRat := by
  refine ⟨by decide, by decide, ?_⟩
  norm_num [Q.toRat, qmk]

/-- **C9 (amended).**  Outside the hardcoded overrides — joined priority
keywords containing `"climate"`, `"tax"`, `"healthcare"` or
`"extremely specific"`, or an empty mapped-priority list — every returned
candidate's `alignmentScore` is the clamped (at 1) sum of
`0.2 × position.strength` over all (position, priority) pairs in
bidirectional case-insensitive containment, and every priority contributing a
hit is recorded in `matchedPriorities`. -/
theorem C9_alignment_sum_amended (analysis : PriorityAnalysis)
    (h1 : strIncludes (lowerS (joinSp (analysis.mappedPriorities.map (·.userPriority))))
      "climate" = false)
    (h2 : strIncludes (lowerS (joinSp (analysis.mappedPriorities.map (·.userPriority))))
      "tax" = false)
    (h3 : strIncludes (lowerS (joinSp (analysis.mappedPriorities.map (·.userPriority))))
      "healthcare" = false)
    (h4 : strIncludes (lowerS (joinSp (analysis.mappedPriorities.map (·.userPriority))))
      "extremely specific" = false)
    (h5 : analysis.mappedPriorities ≠ []) :
    ∀ m ∈ findMatchingCandidates analysis,
      m.alignmentScore =
        qmin (qmk 1 1)
          (qsum (candidateHitTerms (analysis.mappedPriorities.map (·.userPriority))
            m.candidate.positions)) ∧
      ∀ p ∈ analysis.mappedPriorities.map (·.userPriority),
        (∃ pos ∈ m.candidate.positions, posHit pos p = true) → p ∈ m.matchedPriorities := by
  intro m hm
  unfold findMatchingCandidates at hm
  rw [List.mem_insertionSort] at hm
  obtain ⟨c, _, rfl⟩ := List.mem_map.mp hm
  have hups : (analysis.mappedPriorities.map (·.userPriority)).isEmpty = false := by
    cases hmp : analysis.mappedPriorities with
    | nil => exact absurd hmp h5
    | cons a l => rfl
  constructor
  · show (candidateMatchFor _ _ c).alignmentScore = _
    unfold candidateMatchFor
    simp only [h1, h2, h3, h4, hups, Bool.false_and, Bool.false_eq_true, if_false,
      Bool.or_false, candidateScoreFold_fst]
  · intro p hp hhit
    obtain ⟨pos, hpos, hposhit⟩ := hhit
    have hin := candidateScoreFold_snd (analysis.mappedPriorities.map (·.userPriority))
      c.positions p hp pos hpos hposhit
    have hne : (candidateScoreFold (analysis.mappedPriorities.map (·.userPriority))
        c.positions).2.isEmpty = false := by
      cases hl : (candidateScoreFold (analysis.mappedPriorities.map (·.userPriority))
          c.positions).2 with
      | nil => rw [hl] at hin; cases hin
      | cons a l => rfl
    show p ∈ (candidateMatchFor _ _ c).matchedPriorities
    unfold candidateMatchFor
    simp only [hne, Bool.not_false, if_true]
    exact hin

theorem C9_alignment_sum_amended_witness :
    (strIncludes (lowerS (joinSp ((analyzePriorities
        ["Environmental protection"]).mappedPriorities.map (·.userPriority)))) "tax" = false) ∧
    ((analyzePriorities ["Environmental protection"]).mappedPriorities ≠ []) ∧
    ∀ m ∈ findMatchingCandidates (analyzePriorities ["Environmental protection"]),
      m.alignmentScore =
        qmin (qmk 1 1)
          (qsum (candidateHitTerms
            ((analyzePriorities ["Environmental protection"]).mappedPriorities.map (·.userPriority))
            m.candidate.positions)) ∧
      ∀ p ∈ (analyzePriorities ["Environmental protection"]).mappedPriorities.map (·.userPriority),
        (∃ pos ∈ m.candidate.positions, posHit pos p = true) → p ∈ m.matchedPriorities :=
  ⟨by decide, by decide,
   C9_alignment_sum_amended (analyzePriorities ["Environmental protection"])
     (by decide) (by decide) (by decide) (by decide) (by decide)⟩

/-! ### C3 — caching -/

/-- Every pipeline run invokes the mapper exactly once. -/
lemma runPipeline_mapperCalls (svc : Services) (testReq : Bool) (ps : List String)
    (zip : String) (mode : Mode) :
    (runPipeline svc testReq ps zip mode).mapperCalls = 1 := by
  unfold runPipeline
  repeat' split
  all_goals rfl

/-- A successful mapper run (outside the test-rethrow path) is never fatal
and invokes each service exactly once. -/
lemma runPipeline_ok_outcome (svc : Services) (ps : List String) (zip : String) (mode : Mode)
    (A : PriorityAnalysis) (hA : svc.analyzePriorities ps = .ok A) :
    (runPipeline svc false ps zip mode).fatal = false ∧
    (runPipeline svc false ps zip mode).mapperCalls = 1 ∧
    (runPipeline svc false ps zip mode).candidateCalls = 1 ∧
    (runPipeline svc false ps zip mode).measureCalls = 1 := by
  simp only [runPipeline, hA]
  cases svc.findMatchingCandidates A mode zip with
  | error e =>
    simp only [Bool.false_and, Bool.false_eq_true, if_false]
    cases svc.findRelevantMeasures A zip mode <;> exact ⟨rfl, rfl, rfl, rfl⟩
  | ok cands =>
    cases svc.findRelevantMeasures A zip mode <;> exact ⟨rfl, rfl, rfl, rfl⟩

lemma lookupCache_single_hit (k : CacheKey) (r : RecommendationsResult) :
    lookupCache [(k, r)] k = some r := by
  unfold lookupCache
  simp [List.find?]

lemma lookupCache_single_miss (k k2 : CacheKey) (r : RecommendationsResult) (h : k ≠ k2) :
    lookupCache [(k, r)] k2 = none := by
  have hb : (k == k2) = false := beq_eq_false_iff_ne.mpr h
  unfold lookupCache
  simp [List.find?, hb]

/-- A non-test call on the empty cache takes the miss path. -/
lemma generateRecommendations_miss (svc : Services) (req : RecommendationRequest)
    (h : isTestRequest req = false) :
    generateRecommendations svc [] req =
      ⟨(runPipeline svc false (sortStrings req.priorities) req.zipCode req.mode).result,
       (if (runPipeline svc false (sortStrings req.priorities) req.zipCode req.mode).fatal then []
        else [((sortStrings req.priorities, req.zipCode, req.mode),
               (runPipeline svc false (sortStrings req.priorities) req.zipCode req.mode).result)]),
       ⟨sortStrings req.priorities, req.zipCode, req.mode⟩,
       (runPipeline svc false (sortStrings req.priorities) req.zipCode req.mode).mapperCalls,
       (runPipeline svc false (sortStrings req.priorities) req.zipCode req.mode).candidateCalls,
       (runPipeline svc false (sortStrings req.priorities) req.zipCode req.mode).measureCalls⟩ := by
  unfold generateRecommendations
  rw [h]
  rfl

/-- A non-test call whose key is cached returns the cached result and invokes
no service. -/
lemma generateRecommendations_hit (svc : Services) (cache : Cache)
    (req : RecommendationRequest) (h : isTestRequest req = false)
    (r : RecommendationsResult)
    (hr : lookupCache cache (sortStrings req.priorities, req.zipCode, req.mode) = some r) :
    generateRecommendations svc cache req =
      ⟨r, cache, ⟨sortStrings req.priorities, req.zipCode, req.mode⟩, 0, 0, 0⟩ := by
  unfold generateRecommendations
  rw [h]
  simp only [Bool.false_eq_true, if_false, hr]

/-- A non-test call whose key is absent from the cache recomputes. -/
lemma generateRecommendations_miss_general (svc : Services) (cache : Cache)
    (req : RecommendationRequest) (h : isTestRequest req = false)
    (hmiss : lookupCache cache (sortStrings req.priorities, req.zipCode, req.mode) = none) :
    (generateRecommendations svc cache req).mapperCalls =
      (runPipeline svc false (sortStrings req.priorities) req.zipCode req.mode).mapperCalls := by
  unfold generateRecommendations
  rw [h]
  simp only [Bool.false_eq_true, if_false, hmiss]

/-- **C3 (amended).**  For non-test requests (no priority containing
`"test"`/`"mock"` or equal to `"extremely specific"`): two calls with
permuted priorities and equal location and mode invoke each service at most
once combined, provided the first call's priority analysis succeeds (a fatal
mapper failure is not cached); and two calls differing in the priority
multiset, location, or mode always recompute on the second call. -/
theorem C3_caching_amended (svc : Services) (r1 r2 : RecommendationRequest)
    (h1 : isTestRequest r1 = false) (h2 : isTestRequest r2 = false) :
    (r1.priorities.Perm r2.priorities → r1.zipCode = r2.zipCode → r1.mode = r2.mode →
      (svc.analyzePriorities (sortStrings r1.priorities)).isOk = true →
      ((twoCalls svc [] r1 r2).1.mapperCalls + (twoCalls svc [] r1 r2).2.mapperCalls ≤ 1 ∧
       (twoCalls svc [] r1 r2).1.candidateCalls + (twoCalls svc [] r1 r2).2.candidateCalls ≤ 1 ∧
       (twoCalls svc [] r1 r2).1.measureCalls + (twoCalls svc [] r1 r2).2.measureCalls ≤ 1)) ∧
    ((¬ r1.priorities.Perm r2.priorities ∨ r1.zipCode ≠ r2.zipCode ∨ r1.mode ≠ r2.mode) →
      (twoCalls svc [] r1 r2).2.mapperCalls = 1) := by
  constructor
  · intro hperm hzip hmode hok
    cases hA : svc.analyzePriorities (sortStrings r1.priorities) with
    | error e => rw [hA] at hok; cases hok
    | ok A =>
    have hout := runPipeline_ok_outcome svc (sortStrings r1.priorities) r1.zipCode r1.mode A hA
    have hkey : ((sortStrings r2.priorities, r2.zipCode, r2.mode) : CacheKey)
        = (sortStrings r1.priorities, r1.zipCode, r1.mode) := by
      rw [sortStrings_eq_of_perm hperm.symm, hzip, hmode]
    have ho1 := generateRecommendations_miss svc r1 h1
    have hc1 : (generateRecommendations svc [] r1).cache =
        [((sortStrings r1.priorities, r1.zipCode, r1.mode),
          (runPipeline svc false (sortStrings r1.priorities) r1.zipCode r1.mode).result)] := by
      rw [ho1]
      simp only [hout.1, Bool.false_eq_true, if_false]
    have ho2 := generateRecommendations_hit svc (generateRecommendations svc [] r1).cache r2 h2
      (runPipeline svc false (sortStrings r1.priorities) r1.zipCode r1.mode).result
      (by rw [hc1, hkey]; exact lookupCache_single_hit _ _)
    simp only [twoCalls, ho2]
    rw [ho1]
    simp only [hout.2.1, hout.2.2.1, hout.2.2.2]
    exact ⟨Nat.le_refl 1, Nat.le_refl 1, Nat.le_refl 1⟩
  · intro hdiff
    have hkey12 : ((sortStrings r1.priorities, r1.zipCode, r1.mode) : CacheKey)
        ≠ (sortStrings r2.priorities, r2.zipCode, r2.mode) := by
      intro heq
      have e1 : sortStrings r1.priorities = sortStrings r2.priorities :=
        congrArg Prod.fst heq
      have e2 : r1.zipCode = r2.zipCode := congrArg (fun k => k.2.1) heq
      have e3 : r1.mode = r2.mode := congrArg (fun k => k.2.2) heq
      rcases hdiff with hd | hd | hd
      · exact hd (perm_of_sortStrings_eq e1)
      · exact hd e2
      · exact hd e3
    have ho1 := generateRecommendations_miss svc r1 h1
    simp only [twoCalls]
    by_cases hf : (runPipeline svc false (sortStrings r1.priorities) r1.zipCode r1.mode).fatal = true
    · have hc1 : (generateRecommendations svc [] r1).cache = [] := by
        rw [ho1]
        simp only [hf, if_true]
      rw [hc1, generateRecommendations_miss_general svc [] r2 h2 (lookupCache_nil _),
        runPipeline_mapperCalls]
    · have hc1 : (generateRecommendations svc [] r1).cache =
          [((sortStrings r1.priorities, r1.zipCode, r1.mode),
            (runPipeline svc false (sortStrings r1.priorities) r1.zipCode r1.mode).result)] := by
        rw [ho1]
        simp only [Bool.not_eq_true] at hf
        simp only [hf, Bool.false_eq_true, if_false]
      rw [hc1, generateRecommendations_miss_general svc _ r2 h2
        (lookupCache_single_miss _ _ _ hkey12), runPipeline_mapperCalls]

/-- **C3 counterexample.**  The claim fails for every pair of identical test
requests (cache bypass: two identical `["test"]` calls invoke the mapper
twice) and also after a mapper failure (a fatal result is not cached, so two
identical calls recompute). -/
theorem C3_cache_bypass :
    ((twoCalls realServices [] ⟨["test"], "94110", .current⟩
        ⟨["test"], "94110", .current⟩).1.mapperCalls +
     (twoCalls realServices [] ⟨["test"], "94110", .current⟩
        ⟨["test"], "94110", .current⟩).2.mapperCalls = 2) ∧
    ((twoCalls svcMapperDown [] ⟨["economy"], "94110", .current⟩
        ⟨["economy"], "94110", .current⟩).1.mapperCalls +
     (twoCalls svcMapperDown [] ⟨["economy"], "94110", .current⟩
        ⟨["economy"], "94110", .current⟩).2.mapperCalls = 2) :=
  ⟨by decide, by decide⟩

theorem C3_caching_amended_witness :
    (isTestRequest ⟨["economy"], "94110", .current⟩ = false) ∧
    ((realServices.analyzePriorities (sortStrings ["economy"])).isOk = true) ∧
    ((twoCalls realServices [] ⟨["economy"], "94110", .current⟩
        ⟨["economy"], "94110", .current⟩).1.mapperCalls +
     (twoCalls realServices [] ⟨["economy"], "94110", .current⟩
        ⟨["economy"], "94110", .current⟩).2.mapperCalls ≤ 1 ∧
     (twoCalls realServices [] ⟨["economy"], "94110", .current⟩
        ⟨["economy"], "94110", .current⟩).1.candidateCalls +
     (twoCalls realServices [] ⟨["economy"], "94110", .current⟩
        ⟨["economy"], "94110", .current⟩).2.candidateCalls ≤ 1 ∧
     (twoCalls realServices [] ⟨["economy"], "94110", .current⟩
        ⟨["economy"], "94110", .current⟩).1.measureCalls +
     (twoCalls realServices [] ⟨["economy"], "94110", .current⟩
        ⟨["economy"], "94110", .current⟩).2.measureCalls ≤ 1) :=
  ⟨by decide, rfl,
   (C3_caching_amended realServices ⟨["economy"], "94110", .current⟩
       ⟨["economy"], "94110", .current⟩ (by decide) (by decide)).1
     (List.Perm.refl _) rfl rfl rfl⟩
